import Mathlib

/-!
# Verification of the clawd-throttle request-path pipeline

Shallow embedding of the routing core of the `clawd-throttle` reverse proxy:
classifier confidence calibration, override detection, preference-list
routing with rate-limit filtering, session pinning, dedup cache keying,
dual-key failover, and the logging behaviour of the HTTP handlers.

Sources are the TypeScript files of the repository.  A few functions that
the repository's routing engine and HTTP handlers call are not present in
the source tree (only their callers and tests are); those definitions are
modelled from the specification and carry a doc comment starting with
`Modelled from the spec:`.

Conventions: time is a `Nat` of milliseconds (`Date.now()`), money per
million tokens is a rational, JS `number` comparisons on scores and
confidences are modelled with `ℚ` (the router compares but never computes
with them), and the confidence calibration (which uses `Math.exp`) is
modelled over `ℝ`.
-/

deriving instance DecidableEq for Except

namespace ClawdThrottle

/-- `ComplexityTier` from `src/classifier/types.ts`: the classifier's
coarse-grained complexity bucket. -/
inductive ComplexityTier where
  | simple
  | standard
  | complex
deriving DecidableEq, Repr

/-- `TIER_RANK` from `src/router/session-store.ts` (and the index into
`TIER_ORDER` in `src/router/engine.ts`): simple < standard < complex. -/
def tierRank : ComplexityTier → Nat
  | .simple => 0
  | .standard => 1
  | .complex => 2

/-- `TIER_ORDER[idx + 1] ?? t` from `src/router/engine.ts`: the next tier
up, saturating at `complex`. -/
def tierNext : ComplexityTier → ComplexityTier
  | .simple => .standard
  | .standard => .complex
  | .complex => .complex

/-- `RoutingMode` from `src/config/types.ts`. -/
inductive RoutingMode where
  | eco
  | standard
  | performance
  | gigachad
deriving DecidableEq, Repr

/-- `ApiProvider` from `src/router/types.ts`. -/
inductive ApiProvider where
  | anthropic
  | google
  | openai
  | deepseek
  | xai
  | moonshot
  | mistral
  | ollama
  | minimax
deriving DecidableEq, Repr

/-- `ModelSpec` from `src/router/types.ts`. -/
structure ModelSpec where
  id : String
  displayName : String
  provider : ApiProvider
  inputCostPerMTok : ℚ
  outputCostPerMTok : ℚ
  maxContextTokens : Nat
deriving DecidableEq, Repr

/-- `OverrideKind` from `src/router/types.ts`.  The source also uses the
widened string forms `force_opus` / `force_sonnet` / `force_flash`
produced by `detectOverrides`; they are all model-forcing, so they are
collected under `force_model` with the alias recorded separately. -/
inductive OverrideKind where
  | heartbeat
  | force_model (forcedAlias : String)
  | tool_calling
  | sub_agent_inherit
  | sub_agent_stepdown
  | none
deriving DecidableEq, Repr

/-- `OverrideResult` from `src/router/types.ts`. -/
structure OverrideResult where
  kind : OverrideKind
  forcedModelId : Option String := Option.none
deriving DecidableEq, Repr

/-- The anthropic section of `ThrottleConfig` (`src/config/types.ts`). -/
structure AnthropicConfig where
  apiKey : String
  setupToken : String
  preferSetupToken : Bool
deriving DecidableEq, Repr

/-- The fields of `ThrottleConfig` (`src/config/types.ts`) that the
routing and dispatch layer reads: per-provider API keys and the anthropic
dual-key section. -/
structure ThrottleConfig where
  mode : RoutingMode
  anthropic : AnthropicConfig
  googleApiKey : String
  openaiApiKey : String
  deepseekApiKey : String
  xaiApiKey : String
  moonshotApiKey : String
  mistralApiKey : String
  ollamaApiKey : String
  minimaxApiKey : String
deriving DecidableEq, Repr

/-- Modelled from the spec: `src/router/model-registry.ts` in the tree is
an older vintage without provider-availability checks; the routing
engine uses a configuration view of it.  Per spec §3, a provider tag "is
considered `configured` iff apiKey is non-empty (for backends requiring
one)"; Ollama requires no key, and the Anthropic family is configured when
either of its two keys (apiKey, setupToken) is present. -/
def isProviderConfigured (config : ThrottleConfig) : ApiProvider → Bool
  | .anthropic => config.anthropic.apiKey ≠ "" || config.anthropic.setupToken ≠ ""
  | .google => config.googleApiKey ≠ ""
  | .openai => config.openaiApiKey ≠ ""
  | .deepseek => config.deepseekApiKey ≠ ""
  | .xai => config.xaiApiKey ≠ ""
  | .moonshot => config.moonshotApiKey ≠ ""
  | .mistral => config.mistralApiKey ≠ ""
  | .ollama => true
  | .minimax => config.minimaxApiKey ≠ ""

/-! ## Rate limiter (`src/router/rate-limiter.ts`) -/

/-- The `cooldowns` map of `RateLimiter`: modelId → expiresAt
(`Date.now() + cooldownMs`). -/
def RateLimiterState := List (String × Nat)

/-- `RateLimiter.markRateLimited`: store `expiresAt = now + cooldownMs`
for the model (replacing any previous entry, as `Map.set` does). -/
def markRateLimited (st : RateLimiterState) (modelId : String) (now cooldownMs : Nat) :
    RateLimiterState :=
  (modelId, now + cooldownMs) :: st.filter (fun p => p.1 ≠ modelId)

/-- `RateLimiter.isRateLimited`: an absent entry is not limited; an entry
with `Date.now() ≥ expiresAt` is pruned and reported not limited (the
pruning does not change the answer, so the read is modelled pure);
otherwise the model is limited. -/
def isRateLimited (st : RateLimiterState) (now : Nat) (modelId : String) : Bool :=
  match st.find? (fun p => p.1 = modelId) with
  | Option.none => false
  | some p => decide (now < p.2)

/-! ## Model registry resolution

`routeRequest` (router engine) calls `registry.resolvePreference` and
`registry.getCheapestAvailable`; the `model-registry.ts` in the tree is an
older vintage that lacks both (only the engine and its tests reference
them), so they are modelled from the spec.  The registry itself is the
catalog list. -/

/-- The catalog: the insertion-ordered values of the `ModelRegistry` map. -/
def ModelRegistry := List ModelSpec

/-- `ModelRegistry.getById` without the throw: look the id up in the
catalog. -/
def getById (registry : ModelRegistry) (id : String) : Option ModelSpec :=
  List.find? (fun m => m.id = id) registry

/-- Modelled from the spec: `ModelRegistry.resolvePreference` is absent
from the tree.  Spec §4.4 step 3: "take `routingTable[mode][effectiveTier]`,
in order, skip any model whose provider is not configured, skip any model
whose id is currently rate-limited.  Return the first survivor."
Identifiers that do not resolve in the catalog cannot occur per the §3
load-time invariant and are skipped. -/
def resolvePreference (ids : List String) (registry : ModelRegistry)
    (config : ThrottleConfig) (rl : RateLimiterState) (now : Nat) : Option ModelSpec :=
  match ids with
  | [] => Option.none
  | id :: rest =>
    match getById registry id with
    | Option.none => resolvePreference rest registry config rl now
    | some m =>
      if isProviderConfigured config m.provider && !isRateLimited rl now id then
        some m
      else
        resolvePreference rest registry config rl now

/-- Modelled from the spec: `ModelRegistry.getCheapestAvailable` is absent
from the tree.  Spec §4.4 step 4: "fall back to the cheapest model across
all configured-and-not-rate-limited providers"; ties keep the earlier
catalog entry (the source's stable sort by `inputCostPerMTok`). -/
def getCheapestAvailable (registry : ModelRegistry) (config : ThrottleConfig)
    (rl : RateLimiterState) (now : Nat) : Option ModelSpec :=
  let avail := registry.filter
    (fun m => isProviderConfigured config m.provider && !isRateLimited rl now m.id)
  avail.foldl
    (fun acc m =>
      match acc with
      | Option.none => some m
      | some b => if m.inputCostPerMTok < b.inputCostPerMTok then some m else some b)
    Option.none

/-! ## Classification result (`src/classifier/types.ts`) -/

/-- The fields of `ClassificationResult` that the router reads (the twelve
dimension scores and the timing only feed logging). -/
structure ClassificationResult where
  score : ℚ
  tier : ComplexityTier
  confidence : ℚ
deriving DecidableEq, Repr

/-- `RoutingDecision` from `src/router/types.ts`. -/
structure RoutingDecision where
  model : ModelSpec
  tier : ComplexityTier
  mode : RoutingMode
  override : OverrideKind
  reasoning : String
deriving DecidableEq, Repr

/-- The routing table view used by the engine: mode → tier → ordered
preference list (a missing cell reads as the empty list, which the engine
treats the same as an absent one). -/
def RoutingTable := RoutingMode → ComplexityTier → List String

def RoutingMode.render : RoutingMode → String
  | .eco => "eco"
  | .standard => "standard"
  | .performance => "performance"
  | .gigachad => "gigachad"

def ComplexityTier.render : ComplexityTier → String
  | .simple => "simple"
  | .standard => "standard"
  | .complex => "complex"

def OverrideKind.render : OverrideKind → String
  | .heartbeat => "heartbeat"
  | .force_model a => "force_" ++ a
  | .tool_calling => "tool_calling"
  | .sub_agent_inherit => "sub_agent_inherit"
  | .sub_agent_stepdown => "sub_agent_stepdown"
  | .none => "none"

/-- Decimal digits of a natural number (most significant first). -/
def natDigitsStr (n : Nat) : String :=
  String.mk ((Nat.toDigits 10 n))

/-- `Number.prototype.toFixed (d)` on a rational: round `|q|·10^d` half
away from zero (computed on the numerator and denominator with natural
arithmetic) and render with a fixed number of fraction digits.  (This
abstracts the binary-float formatting of the source; the claims never
depend on the digits themselves.) -/
def ratToFixed (q : ℚ) (d : Nat) : String :=
  let p : Nat := 10 ^ d
  let n : Nat := (q.num.natAbs * p * 2 + q.den) / (2 * q.den)
  let whole := n / p
  let frac := n % p
  let fracStr := natDigitsStr frac
  let fracPadded := String.mk (List.replicate (d - fracStr.length) '0') ++ fracStr
  let sign := if q.num < 0 ∧ n ≠ 0 then "-" else ""
  if d = 0 then sign ++ natDigitsStr whole
  else sign ++ natDigitsStr whole ++ "." ++ fracPadded

/-- The effective-tier computation inlined in `routeRequest`
(`src/router/engine.ts`): the tool-calling floor raises sub-`standard`
tiers to `standard`, then the confidence step-up (`confidence < 0.70` and
not already `complex`) raises the result one further step. -/
def computeEffectiveTier (classification : ClassificationResult)
    (override : OverrideResult) : ComplexityTier :=
  let t₁ :=
    if override.kind = OverrideKind.tool_calling ∧
        tierRank classification.tier < tierRank ComplexityTier.standard then
      ComplexityTier.standard
    else classification.tier
  if classification.confidence < mkRat 7 10 ∧ t₁ ≠ ComplexityTier.complex then
    tierNext t₁
  else t₁

/-- `routeRequest` from `src/router/engine.ts` (the preference-list
engine).  The singleton rate limiter consulted during preference
resolution is passed explicitly, with `now` the current clock.  Throws
become `Except.error`. -/
def routeRequest (classification : ClassificationResult) (mode : RoutingMode)
    (override : OverrideResult) (registry : ModelRegistry)
    (config : ThrottleConfig) (routingTable : RoutingTable)
    (rl : RateLimiterState) (now : Nat) : Except String RoutingDecision :=
  if override.kind ≠ OverrideKind.none ∧ override.forcedModelId.isSome then
    match getById registry (override.forcedModelId.getD "") with
    | Option.none => Except.error ("Unknown model ID: " ++ override.forcedModelId.getD "")
    | some model =>
      Except.ok
        { model := model
          tier := classification.tier
          mode := mode
          override := override.kind
          reasoning := "Override " ++ override.kind.render ++ ": forced to " ++ model.displayName }
  else
    let effectiveTier := computeEffectiveTier classification override
    let preferenceList := routingTable mode effectiveTier
    if preferenceList.isEmpty then
      Except.error ("No routing entry for mode=" ++ mode.render ++ ", tier=" ++ effectiveTier.render)
    else
      let stepped := effectiveTier ≠ classification.tier
      let overrideKind :=
        if override.kind = OverrideKind.tool_calling then OverrideKind.tool_calling
        else OverrideKind.none
      match resolvePreference preferenceList registry config rl now with
      | some model =>
        let notes : List String :=
          (if override.kind = OverrideKind.tool_calling then ["tool_calling tier floor"] else [])
          ++ (if stepped ∧ classification.confidence < mkRat 7 10 then
                ["confidence step-up from " ++ classification.tier.render
                  ++ " (confidence=" ++ ratToFixed classification.confidence 2 ++ ")"]
              else [])
        let stepNote := if notes.length > 0 then " (" ++ String.intercalate ", " notes ++ ")" else ""
        Except.ok
          { model := model
            tier := effectiveTier
            mode := mode
            override := overrideKind
            reasoning := "Mode=" ++ mode.render ++ ", Tier=" ++ effectiveTier.render
              ++ ", Score=" ++ ratToFixed classification.score 3 ++ stepNote
              ++ " => " ++ model.displayName }
      | Option.none =>
        match getCheapestAvailable registry config rl now with
        | Option.none =>
          Except.error "No models available - configure at least one provider API key"
        | some fallback =>
          Except.ok
            { model := fallback
              tier := effectiveTier
              mode := mode
              override := OverrideKind.none
              reasoning := "Fallback: no preferred model available for mode=" ++ mode.render
                ++ ", tier=" ++ effectiveTier.render ++ ". Using " ++ fallback.displayName }

/-! ## Session store (`src/router/session-store.ts`) -/

/-- `SessionEntry` from `src/router/session-store.ts`. -/
structure SessionEntry where
  modelId : String
  tier : ComplexityTier
  lastUsedAt : Nat
  lastFailedAt : Option Nat := Option.none
deriving DecidableEq, Repr

/-- The `sessions` map of `SessionStore`, as an association list. -/
def SessionMap := List (String × SessionEntry)

/-- `Map.get` on the sessions map. -/
def sessionLookup (sessions : SessionMap) (id : String) : Option SessionEntry :=
  (List.find? (fun p => p.1 = id) sessions).map (·.2)

/-- `Map.set` on the sessions map (replace or insert). -/
def sessionInsert (sessions : SessionMap) (id : String) (e : SessionEntry) : SessionMap :=
  (id, e) :: sessions.filter (fun p => p.1 ≠ id)

/-- `Map.delete` on the sessions map. -/
def sessionErase (sessions : SessionMap) (id : String) : SessionMap :=
  sessions.filter (fun p => p.1 ≠ id)

/-- `SessionStore.get`: absent → `undefined`; expired
(`now - lastUsedAt > timeoutMs`) → delete and `undefined`; otherwise the
pinned (modelId, tier).  Returns the possibly-pruned map as well. -/
def sessionGet (timeoutMs : Nat) (sessions : SessionMap) (id : String) (now : Nat) :
    Option (String × ComplexityTier) × SessionMap :=
  match sessionLookup sessions id with
  | Option.none => (Option.none, sessions)
  | some e =>
    if now - e.lastUsedAt > timeoutMs then
      (Option.none, sessionErase sessions id)
    else
      (some (e.modelId, e.tier), sessions)

/-- `SessionStore.set`: create a new pin if absent; with an existing
(non-expired) pin, replace only when the new tier is strictly greater in
`TIER_RANK`, else keep the existing model and tier; either way
`lastUsedAt` becomes `now`.  Returns the effective (modelId, tier) and the
new map.  (The source writes a fresh `{modelId, tier, lastUsedAt}` object
in every branch, so `lastFailedAt` is dropped on each `set`.) -/
def sessionSet (timeoutMs : Nat) (sessions : SessionMap) (id modelId : String)
    (tier : ComplexityTier) (now : Nat) : (String × ComplexityTier) × SessionMap :=
  let (existing, sessions₁) := sessionGet timeoutMs sessions id now
  match existing with
  | some (exModelId, exTier) =>
    if tierRank exTier < tierRank tier then
      ((modelId, tier),
        sessionInsert sessions₁ id { modelId := modelId, tier := tier, lastUsedAt := now })
    else
      ((exModelId, exTier),
        sessionInsert sessions₁ id { modelId := exModelId, tier := exTier, lastUsedAt := now })
  | Option.none =>
    ((modelId, tier),
      sessionInsert sessions₁ id { modelId := modelId, tier := tier, lastUsedAt := now })

/-- One `set(sessionId, modelId, tier)` call of a recorded sequence:
the arguments plus the `Date.now()` at which it ran. -/
structure SetCall where
  modelId : String
  tier : ComplexityTier
  now : Nat
deriving DecidableEq, Repr

/-- Run a sequence of `set` calls for one session id, collecting the
effective (modelId, tier) observed after each call. -/
def runSets (timeoutMs : Nat) (sessions : SessionMap) (id : String) :
    List SetCall → List (String × ComplexityTier) × SessionMap
  | [] => ([], sessions)
  | c :: rest =>
    let (r, sessions') := sessionSet timeoutMs sessions id c.modelId c.tier c.now
    let (rs, sessions'') := runSets timeoutMs sessions' id rest
    (r :: rs, sessions'')

/-! ## Anthropic dual-key failover (`src/proxy/anthropic-dual-key.ts`,
`src/proxy/dispatcher.ts`) -/

/-- `AnthropicKeyType` from `src/proxy/anthropic-dual-key.ts`. -/
inductive AnthropicKeyType where
  | setupToken
  | enterprise
deriving DecidableEq, Repr

/-- The other key type. -/
def AnthropicKeyType.other : AnthropicKeyType → AnthropicKeyType
  | .setupToken => .enterprise
  | .enterprise => .setupToken

/-- `KeyEntry` from `src/proxy/anthropic-dual-key.ts`. -/
structure KeyEntry where
  key : String
  type : AnthropicKeyType
deriving DecidableEq, Repr

/-- The mutable cooldown fields of `AnthropicDualKey`
(`setupTokenCooldownUntil`, `enterpriseCooldownUntil`; 0 = no cooldown). -/
structure DualKeyState where
  setupTokenCooldownUntil : Nat := 0
  enterpriseCooldownUntil : Nat := 0
deriving DecidableEq, Repr

/-- Whether a key type is configured: `!!setupToken` resp. `!!apiKey`. -/
def keyConfigured (config : ThrottleConfig) : AnthropicKeyType → Bool
  | .setupToken => config.anthropic.setupToken ≠ ""
  | .enterprise => config.anthropic.apiKey ≠ ""

/-- `AnthropicDualKey.isCoolingDown`: `until = 0` → false; expired
(`now ≥ until`, cleared in the source without changing the answer) →
false; otherwise true. -/
def isCoolingDown (st : DualKeyState) (keyType : AnthropicKeyType) (now : Nat) : Bool :=
  let untilMs :=
    match keyType with
    | .setupToken => st.setupTokenCooldownUntil
    | .enterprise => st.enterpriseCooldownUntil
  if untilMs = 0 then false
  else decide (now < untilMs)

/-- `AnthropicDualKey.markCooldown`: set the key type's cooldown expiry to
`now + cooldownMs` (the constructor default for `cooldownMs` is 60 000). -/
def markCooldown (st : DualKeyState) (keyType : AnthropicKeyType) (now cooldownMs : Nat) :
    DualKeyState :=
  match keyType with
  | .setupToken => { st with setupTokenCooldownUntil := now + cooldownMs }
  | .enterprise => { st with enterpriseCooldownUntil := now + cooldownMs }

/-- `AnthropicDualKey.selectKeys`: pick (primary, fallback) from
configuration and cooldown state.  Mirrors the four rule groups of the
source: neither configured, exactly one configured, and both configured
split on `preferSetupToken` and the preferred key's cooldown. -/
def selectKeys (config : ThrottleConfig) (st : DualKeyState) (now : Nat) :
    Option KeyEntry × Option KeyEntry :=
  let hasSetup := config.anthropic.setupToken ≠ ""
  let hasEnterprise := config.anthropic.apiKey ≠ ""
  if !hasSetup && !hasEnterprise then
    (Option.none, Option.none)
  else
    let setupEntry : KeyEntry := { key := config.anthropic.setupToken, type := .setupToken }
    let enterpriseEntry : KeyEntry := { key := config.anthropic.apiKey, type := .enterprise }
    let setupCooling := isCoolingDown st .setupToken now
    let enterpriseCooling := isCoolingDown st .enterprise now
    if hasSetup && !hasEnterprise then
      (some setupEntry, Option.none)
    else if !hasSetup && hasEnterprise then
      (some enterpriseEntry, Option.none)
    else if config.anthropic.preferSetupToken then
      if !setupCooling then
        (some setupEntry, if enterpriseCooling then Option.none else some enterpriseEntry)
      else
        (some enterpriseEntry, Option.none)
    else
      if !enterpriseCooling then
        (some enterpriseEntry, if setupCooling then Option.none else some setupEntry)
      else
        (some setupEntry, Option.none)

/-- The fields of `ProxyResponse` (`src/proxy/types.ts`) that the
dispatcher reads or writes. -/
structure ProxyResponse where
  content : String
  inputTokens : Nat
  outputTokens : Nat
  keyType : Option AnthropicKeyType := Option.none
  failover : Bool := false
deriving DecidableEq, Repr

/-- The outcome of one `callAnthropic` attempt: a response, or a
`ProxyError` with its HTTP status. -/
inductive CallOutcome where
  | success (resp : ProxyResponse)
  | failure (status : Nat)
deriving DecidableEq, Repr

/-- The observable result of `dispatchAnthropic`: the returned response or
the propagated error status, the dual-key state afterwards, and how many
`callAnthropic` attempts were made. -/
structure AnthropicDispatchResult where
  result : Except Nat ProxyResponse
  state : DualKeyState
  attempts : Nat
deriving Repr

/-- `dispatchAnthropic` from `src/proxy/dispatcher.ts`.  The network is
abstracted by the outcomes of the (at most two) `callAnthropic` attempts:
`first` with the primary key and `second` with the fallback key.  On a
primary 429/401 with a fallback available, the primary key type is put in
cooldown (the singleton's default 60 000 ms) and the fallback result is
annotated `failover := true` with its key type; any other error
propagates. -/
def dispatchAnthropic (config : ThrottleConfig) (st : DualKeyState) (now : Nat)
    (first second : CallOutcome) : AnthropicDispatchResult :=
  match selectKeys config st now with
  | (Option.none, _) => { result := Except.error 401, state := st, attempts := 0 }
  | (some primary, fallback) =>
    match first with
    | .success r =>
      { result := Except.ok { r with keyType := some primary.type, failover := false }
        state := st
        attempts := 1 }
    | .failure status =>
      if (status = 429 ∨ status = 401) ∧ fallback.isSome then
        let st' := markCooldown st primary.type now 60000
        match fallback, second with
        | some fb, .success r =>
          { result := Except.ok { r with keyType := some fb.type, failover := true }
            state := st'
            attempts := 2 }
        | some _, .failure status' =>
          { result := Except.error status', state := st', attempts := 2 }
        | Option.none, _ =>
          { result := Except.error status, state := st, attempts := 1 }
      else
        { result := Except.error status, state := st, attempts := 1 }

/-! ## Override detector (`src/router/overrides.ts`)

The HTTP handlers call a five-argument `detectOverrides` (with a
`hasTools` flag); the `overrides.ts` in the tree is the four-argument
vintage without the tool branch, so steps 1-3 below are translated from it
and the tool step is modelled from spec §4.3. -/

/-- A chat message as the override detector and dedup cache see it. -/
structure NeutralMessage where
  role : String
  content : String
deriving DecidableEq, Repr

/-- `MODEL_HIERARCHY` from `src/router/overrides.ts`
(cheapest first). -/
def MODEL_HIERARCHY : List String :=
  ["gemini-2.5-flash", "claude-sonnet-4-5-20250514", "claude-opus-4-5-20250514"]

/-- `FORCE_MODEL_MAP` from `src/router/overrides.ts`. -/
def forceModelMap : String → Option String
  | "opus" => some "claude-opus-4-5-20250514"
  | "sonnet" => some "claude-sonnet-4-5-20250514"
  | "flash" => some "gemini-2.5-flash"
  | _ => Option.none

/-- A character of the JS `\s` class (the ASCII members; the source never
feeds the exotic Unicode spaces). -/
def jsWhitespace (c : Char) : Bool :=
  c = ' ' || c = '\t' || c = '\n' || c = '\r' || c = '\x0b' || c = '\x0c'

/-- JS `String.prototype.trim`: drop leading and trailing whitespace. -/
def jsTrim (s : String) : String :=
  String.mk (((s.data.dropWhile jsWhitespace).reverse.dropWhile jsWhitespace).reverse)

/-- JS `String.prototype.toLowerCase` (ASCII range, which is all the
override patterns compare). -/
def jsToLower (s : String) : String :=
  String.mk (s.data.map Char.toLower)

/-- `String.prototype.startsWith`. -/
def startsWithLit (pre s : String) : Bool :=
  List.isPrefixOf pre.data s.data

/-- Strip a literal character sequence from the front, or fail. -/
def stripLit : List Char → List Char → Option (List Char)
  | [], cs => some cs
  | _ :: _, [] => Option.none
  | w :: ws, c :: cs => if c = w then stripLit ws cs else Option.none

/-- Strip the regex `\s+` (one or more whitespace characters) from the
front, or fail.  Greedy consumption is exact here because every literal
that follows `\s+` in the heartbeat patterns starts with a
non-whitespace character. -/
def stripWs1 (cs : List Char) : Option (List Char) :=
  match cs with
  | [] => Option.none
  | c :: rest => if jsWhitespace c then some (rest.dropWhile jsWhitespace) else Option.none

/-- Try a regex alternation `(w₁|w₂|…)` in order, returning the remainder
after the first alternative that matches.  (The alternative lists used
below are pairwise non-ambiguous: no two alternatives match the same
input prefix, so first-match is exact.) -/
def stripAlt : List String → List Char → Option (List Char)
  | [], _ => Option.none
  | w :: ws, cs =>
    match stripLit w.data cs with
    | some rest => some rest
    | Option.none => stripAlt ws cs

/-- The whole-string alternatives of the first heartbeat regex:
`^(ping|pong|heartbeat|health[- ]?check|status[- ]?check|alive\??|are you there\??)$`. -/
def heartbeatExact : List String :=
  ["ping", "pong", "heartbeat",
   "healthcheck", "health-check", "health check",
   "statuscheck", "status-check", "status check",
   "alive", "alive?", "are you there", "are you there?"]

/-- The summary-word group `(summarize|summary|tldr|tl;dr|recap|brief overview)`. -/
def summaryWords : List String :=
  ["summarize", "summary", "tldr", "tl;dr", "recap", "brief overview"]

/-- The trailing objects of the third heartbeat regex:
`(this|the|our|above|conversation|chat|thread|discussion|everything)`. -/
def summaryObjects : List String :=
  ["this", "the", "our", "above", "conversation", "chat", "thread",
   "discussion", "everything"]

/-- The third heartbeat regex:
`^(summarize|…|brief overview)\s+(this|the|…|everything)$`. -/
def matchSummaryOf (cs : List Char) : Bool :=
  match stripAlt summaryWords cs with
  | some rest =>
    match stripWs1 rest with
    | some rest' => summaryObjects.contains (String.mk rest')
    | Option.none => false
  | Option.none => false

/-- The fourth heartbeat regex:
`^give\s+me\s+a\s+(brief\s+)?(summary|recap|overview)$`. -/
def matchGiveMeA (cs : List Char) : Bool :=
  match stripLit "give".data cs with
  | Option.none => false
  | some r₁ =>
    match stripWs1 r₁ with
    | Option.none => false
    | some r₂ =>
      match stripLit "me".data r₂ with
      | Option.none => false
      | some r₃ =>
        match stripWs1 r₃ with
        | Option.none => false
        | some r₄ =>
          match stripLit "a".data r₄ with
          | Option.none => false
          | some r₅ =>
            match stripWs1 r₅ with
            | Option.none => false
            | some r₆ =>
              let tail := String.mk r₆
              (["summary", "recap", "overview"].contains tail) ||
              (match stripLit "brief".data r₆ with
               | Option.none => false
               | some r₇ =>
                 match stripWs1 r₇ with
                 | Option.none => false
                 | some r₈ => ["summary", "recap", "overview"].contains (String.mk r₈))

/-- The fifth heartbeat regex:
`^can\s+you\s+(summarize|recap)\s+(this|the|our|everything)(\??)$`. -/
def matchCanYou (cs : List Char) : Bool :=
  match stripLit "can".data cs with
  | Option.none => false
  | some r₁ =>
    match stripWs1 r₁ with
    | Option.none => false
    | some r₂ =>
      match stripLit "you".data r₂ with
      | Option.none => false
      | some r₃ =>
        match stripWs1 r₃ with
        | Option.none => false
        | some r₄ =>
          match stripAlt ["summarize", "recap"] r₄ with
          | Option.none => false
          | some r₅ =>
            match stripWs1 r₅ with
            | Option.none => false
            | some r₆ =>
              let tail := String.mk r₆
              (["this", "the", "our", "everything"].contains tail) ||
              (["this?", "the?", "our?", "everything?"].contains tail)

/-- `isHeartbeatOrSummary` from `src/router/overrides.ts`: normalize with
`trim().toLowerCase()` and test the five anchored case-insensitive
regexes. -/
def isHeartbeatOrSummary (text : String) : Bool :=
  let normalized := jsToLower (jsTrim text)
  heartbeatExact.contains normalized ||
  summaryWords.contains normalized ||
  matchSummaryOf normalized.data ||
  matchGiveMeA normalized.data ||
  matchCanYou normalized.data

/-- `stepDownModel` from `src/router/overrides.ts`: one step down the
hierarchy; unknown models and the floor model come back unchanged. -/
def stepDownModel (parentModelId : String) : String :=
  match MODEL_HIERARCHY.indexOf? parentModelId with
  | Option.none => parentModelId
  | some 0 => parentModelId
  | some (i + 1) => (MODEL_HIERARCHY.get? i).getD parentModelId

/-- The routing-log lookup that `detectOverrides` performs
(`logReader.getEntryById`), abstracted to the one field it reads. -/
def LogReaderView := String → Option String

/-- The last user message's content (`messages.filter(role =
'user').pop()?.content ?? ''`). -/
def lastUserText (messages : List NeutralMessage) : String :=
  (((messages.filter (fun m => m.role = "user")).getLast?).map (fun m => m.content)).getD ""

/-- `detectOverrides`, five-argument form called by the HTTP handlers.
Steps: (1) heartbeat/summary on the last user utterance, (2) explicit
force commands (header value then `/opus` `/sonnet` `/flash` inline
prefixes), (3) sub-agent inheritance from a logged parent request,
(4) tool definitions, (5) none.
Modelled from the spec: step 4 — the tree only has the four-argument
vintage without it; spec §4.3: "If the request carries tool definitions →
`tool_calling`", evaluated after the three steps above. -/
def detectOverrides (messages : List NeutralMessage) (forceModel : Option String)
    (parentRequestId : Option String) (logReader : LogReaderView)
    (hasTools : Bool) : OverrideResult :=
  let lastUserContent := lastUserText messages
  if isHeartbeatOrSummary lastUserContent then
    { kind := .heartbeat, forcedModelId := MODEL_HIERARCHY.head? }
  else
    match forceModel.bind forceModelMap, forceModel with
    | some id, some f => { kind := .force_model f, forcedModelId := some id }
    | _, _ =>
      let trimmed := jsToLower (jsTrim lastUserContent)
      if startsWithLit "/opus" trimmed then
        { kind := .force_model "opus", forcedModelId := forceModelMap "opus" }
      else if startsWithLit "/sonnet" trimmed then
        { kind := .force_model "sonnet", forcedModelId := forceModelMap "sonnet" }
      else if startsWithLit "/flash" trimmed then
        { kind := .force_model "flash", forcedModelId := forceModelMap "flash" }
      else
        match parentRequestId with
        | some pid =>
          match logReader pid with
          | some parentModel =>
            let steppedDown := stepDownModel parentModel
            if steppedDown = parentModel then
              { kind := .sub_agent_inherit, forcedModelId := some steppedDown }
            else
              { kind := .sub_agent_stepdown, forcedModelId := some steppedDown }
          | Option.none =>
            if hasTools then { kind := .tool_calling } else { kind := .none }
        | Option.none =>
          if hasTools then { kind := .tool_calling } else { kind := .none }

/-! ## SHA-256

`DedupCache.computeKey` hashes with node's `createHash('sha256')`;
the algorithm is embedded here over `Nat` with explicit 32-bit masking. -/

/-- 2^32, the word modulus. -/
def M32 : Nat := 4294967296

/-- Truncate to 32 bits. -/
def mask32 (n : Nat) : Nat := n % M32

/-- Rotate a 32-bit word right by `k`. -/
def rotr32 (k n : Nat) : Nat := mask32 ((n >>> k) ||| (n <<< (32 - k)))

/-- The 64 SHA-256 round constants, written in decimal. -/
def sha256K : List Nat :=
  [1116352408, 1899447441, 3049323471, 3921009573, 961987163,
   1508970993, 2453635748, 2870763221, 3624381080, 310598401,
   607225278, 1426881987, 1925078388, 2162078206, 2614888103,
   3248222580, 3835390401, 4022224774, 264347078, 604807628,
   770255983, 1249150122, 1555081692, 1996064986, 2554220882,
   2821834349, 2952996808, 3210313671, 3336571891, 3584528711,
   113926993, 338241895, 666307205, 773529912, 1294757372,
   1396182291, 1695183700, 1986661051, 2177026350, 2456956037,
   2730485921, 2820302411, 3259730800, 3345764771, 3516065817,
   3600352804, 4094571909, 275423344, 430227734, 506948616,
   659060556, 883997877, 958139571, 1322822218, 1537002063,
   1747873779, 1955562222, 2024104815, 2227730452, 2361852424,
   2428436474, 2756734187, 3204031479, 3329325298]

/-- The eight SHA-256 initial hash words, written in decimal. -/
def sha256H0 : List Nat :=
  [1779033703, 3144134277, 1013904242, 2773480762,
   1359893119, 2600822924, 528734635, 1541459225]

/-- Merkle–Damgård padding: append `0x80`, zero bytes to 56 mod 64, and
the bit length as a 64-bit big-endian integer. -/
def sha256Pad (msg : List Nat) : List Nat :=
  let len := msg.length
  let zeros := (119 - len % 64) % 64
  let bitLen := len * 8
  msg ++ [0x80] ++ List.replicate zeros 0 ++
    (List.range 8).map (fun i => (bitLen >>> ((7 - i) * 8)) % 256)

/-- Pack big-endian bytes into 32-bit words. -/
def bytesToWords32 : List Nat → List Nat
  | b0 :: b1 :: b2 :: b3 :: rest =>
    (((b0 * 256 + b1) * 256 + b2) * 256 + b3) :: bytesToWords32 rest
  | _ => []

/-- Split a word list into 16-word blocks (padding guarantees a multiple
of 16). -/
def wordsToBlocks : List Nat → List (List Nat)
  | w0 :: w1 :: w2 :: w3 :: w4 :: w5 :: w6 :: w7 ::
    w8 :: w9 :: w10 :: w11 :: w12 :: w13 :: w14 :: w15 :: rest =>
    [w0, w1, w2, w3, w4, w5, w6, w7, w8, w9, w10, w11, w12, w13, w14, w15] ::
      wordsToBlocks rest
  | _ => []

/-- Extend a 16-word block to the 64-word message schedule. -/
def sha256Schedule (block : List Nat) : Array Nat :=
  (List.range 48).foldl
    (fun w _ =>
      let i := w.size
      let s0 :=
        (rotr32 7 w[i - 15]!) ^^^ (rotr32 18 w[i - 15]!) ^^^ (w[i - 15]! >>> 3)
      let s1 :=
        (rotr32 17 w[i - 2]!) ^^^ (rotr32 19 w[i - 2]!) ^^^ (w[i - 2]! >>> 10)
      w.push (mask32 (w[i - 16]! + s0 + w[i - 7]! + s1)))
    block.toArray

/-- One SHA-256 compression step. -/
def sha256Compress (h : List Nat) (block : List Nat) : List Nat :=
  let w := sha256Schedule block
  let final :=
    (List.range 64).foldl
      (fun st t =>
        match st with
        | [a, b, c, d, e, f, g, hh] =>
          let s1 := (rotr32 6 e) ^^^ (rotr32 11 e) ^^^ (rotr32 25 e)
          let ch := (e &&& f) ^^^ ((M32 - 1 - e) &&& g)
          let temp1 := mask32 (hh + s1 + ch + (sha256K.get? t).getD 0 + w[t]!)
          let s0 := (rotr32 2 a) ^^^ (rotr32 13 a) ^^^ (rotr32 22 a)
          let maj := (a &&& b) ^^^ (a &&& c) ^^^ (b &&& c)
          let temp2 := mask32 (s0 + maj)
          [mask32 (temp1 + temp2), a, b, c, mask32 (d + temp1), e, f, g]
        | other => other)
      h
  List.zipWith (fun x y => mask32 (x + y)) h final

/-- SHA-256 digest of a byte sequence, as eight 32-bit words. -/
def sha256Words (msg : List Nat) : List Nat :=
  (wordsToBlocks (bytesToWords32 (sha256Pad msg))).foldl sha256Compress sha256H0

/-- Lowercase hex digit. -/
def hexDigit (n : Nat) : Char :=
  if n < 10 then Char.ofNat (48 + n) else Char.ofNat (87 + n)

/-- A 32-bit word as 8 lowercase hex characters. -/
def wordToHex8 (n : Nat) : List Char :=
  (List.range 8).map (fun i => hexDigit ((n >>> ((7 - i) * 4)) % 16))

/-- UTF-8 encoding of a character (what `update(payload, 'utf-8')`
feeds the hash). -/
def utf8EncodeCharBytes (c : Char) : List Nat :=
  let n := c.toNat
  if n < 0x80 then [n]
  else if n < 0x800 then
    [0xc0 ||| (n >>> 6), 0x80 ||| (n &&& 0x3f)]
  else if n < 0x10000 then
    [0xe0 ||| (n >>> 12), 0x80 ||| ((n >>> 6) &&& 0x3f), 0x80 ||| (n &&& 0x3f)]
  else
    [0xf0 ||| (n >>> 18), 0x80 ||| ((n >>> 12) &&& 0x3f),
     0x80 ||| ((n >>> 6) &&& 0x3f), 0x80 ||| (n &&& 0x3f)]

/-- UTF-8 bytes of a string. -/
def utf8Bytes (s : String) : List Nat :=
  s.data.flatMap utf8EncodeCharBytes

/-- `createHash('sha256').update(s, 'utf-8').digest('hex')`. -/
def sha256Hex (s : String) : String :=
  String.mk ((sha256Words (utf8Bytes s)).flatMap wordToHex8)

/-! ## Dedup cache (`src/proxy/dedup-cache.ts`) -/

/-- JSON string escaping as `JSON.stringify` performs it on the payload
strings. -/
def jsonEscapeChar (c : Char) : String :=
  if c = '"' then "\\\""
  else if c = '\\' then "\\\\"
  else if c = '\x08' then "\\b"
  else if c = '\t' then "\\t"
  else if c = '\n' then "\\n"
  else if c = '\x0c' then "\\f"
  else if c = '\r' then "\\r"
  else if c.toNat < 32 then
    "\\u00" ++ String.mk [hexDigit (c.toNat / 16), hexDigit (c.toNat % 16)]
  else String.singleton c

/-- A JSON string literal. -/
def jsonQuote (s : String) : String :=
  "\"" ++ String.join (s.data.map jsonEscapeChar) ++ "\""

/-- `JSON.stringify({system, messages})` for the dedup payload: object
keys in insertion order (`system` then `messages`; `role` then `content`
inside each message), messages in their given order. -/
def jsonPayload (system : String) (messages : List NeutralMessage) : String :=
  "\x7b\"system\":" ++ jsonQuote system ++ ",\"messages\":[" ++
    String.intercalate ","
      (messages.map (fun m =>
        "\x7b\"role\":" ++ jsonQuote m.role ++ ",\"content\":" ++ jsonQuote m.content ++ "\x7d")) ++
    "]\x7d"

/-- JS `\w` (word character). -/
def isWordChar (c : Char) : Bool := c.isAlphanum || c = '_'

/-- Strip exactly `k` ASCII digits. -/
def stripDigits : Nat → List Char → Option (List Char)
  | 0, cs => some cs
  | _ + 1, [] => Option.none
  | k + 1, c :: cs => if c.isDigit then stripDigits k cs else Option.none

/-- Strip one character of the JS `\s` class. -/
def stripOneWs : List Char → Option (List Char)
  | [] => Option.none
  | c :: cs => if jsWhitespace c then some cs else Option.none

/-- The timestamp-prefix regex of `DedupCache.computeKey`:
`^\[(?:MON|TUE|WED|THU|FRI|SAT|SUN)\s\d\x7b4\x7d-\d\x7b2\x7d-\d\x7b2\x7d\s\d\x7b2\x7d:\d\x7b2\x7d\s\w+\]\s*`
with the `i` flag.  Returns the remainder after the matched prefix, or
`none` when the front does not match. -/
def matchTimestamp (cs : List Char) : Option (List Char) :=
  match cs with
  | '[' :: d1 :: d2 :: d3 :: rest =>
    if ["mon", "tue", "wed", "thu", "fri", "sat", "sun"].contains
        (String.mk [d1.toLower, d2.toLower, d3.toLower]) then
      (stripOneWs rest).bind fun r1 =>
      (stripDigits 4 r1).bind fun r2 =>
      (stripLit ['-'] r2).bind fun r3 =>
      (stripDigits 2 r3).bind fun r4 =>
      (stripLit ['-'] r4).bind fun r5 =>
      (stripDigits 2 r5).bind fun r6 =>
      (stripOneWs r6).bind fun r7 =>
      (stripDigits 2 r7).bind fun r8 =>
      (stripLit [':'] r8).bind fun r9 =>
      (stripDigits 2 r9).bind fun r10 =>
      (stripOneWs r10).bind fun r11 =>
        let afterWord := r11.dropWhile isWordChar
        if r11.takeWhile isWordChar |>.isEmpty then Option.none
        else match afterWord with
          | ']' :: tail => some (tail.dropWhile jsWhitespace)
          | _ => Option.none
    else Option.none
  | _ => Option.none

/-- `content.replace(timestampRegex, '')`: strip one leading timestamp
prefix when present, else leave the content unchanged. -/
def stripTimestampFront (s : String) : String :=
  match matchTimestamp s.data with
  | some rest => String.mk rest
  | Option.none => s

/-- `DedupCache.computeKey`: canonicalize each message by stripping the
timestamp prefix (order and roles kept as given), JSON-encode
`\x7bsystem, messages\x7d` with `system` defaulting to the empty string,
and take the first 16 hex characters of the SHA-256. -/
def computeKey (messages : List NeutralMessage) (systemPrompt : Option String) : String :=
  let canonical := messages.map
    (fun m => { role := m.role, content := stripTimestampFront m.content : NeutralMessage })
  let payload := jsonPayload (systemPrompt.getD "") canonical
  String.mk ((sha256Hex payload).data.take 16)

/-- `CachedResponse` from `src/proxy/dedup-cache.ts` (the `headers` map
always holds the single serialized `_raw` entry, modelled as one string). -/
structure CachedResponse where
  status : Nat
  headersRaw : String
  body : String
  completedAt : Nat
deriving DecidableEq, Repr

/-- The mutable maps of `DedupCache`: completed responses keyed by dedup
key, and the keys with an in-flight producer (the fan-out promise
machinery is abstracted; a waiter's observed outcome is a run parameter). -/
structure DedupState where
  completed : List (String × CachedResponse)
  inflight : List String
deriving DecidableEq, Repr

/-- `DedupCache.getCompleted`: absent → miss; expired
(`now - completedAt > ttl`) → delete and miss; else hit. -/
def getCompleted (ttlMs : Nat) (st : DedupState) (key : String) (now : Nat) :
    Option CachedResponse × DedupState :=
  match (List.find? (fun p => p.1 = key) st.completed).map (·.2) with
  | Option.none => (Option.none, st)
  | some e =>
    if now - e.completedAt > ttlMs then
      (Option.none, { st with completed := st.completed.filter (fun p => p.1 ≠ key) })
    else
      (some e, st)

/-- `DedupCache.markInflight`: an existing entry means the caller becomes
a waiter; otherwise a new in-flight entry is created and the caller is
the producer. -/
def markInflight (st : DedupState) (key : String) : Bool × DedupState :=
  if st.inflight.contains key then
    (true, st)
  else
    (false, { st with inflight := key :: st.inflight })

/-- `DedupCache.prune`: drop expired completed entries. -/
def dedupPrune (ttlMs : Nat) (st : DedupState) (now : Nat) : DedupState :=
  { st with completed := st.completed.filter (fun p => !(now - p.2.completedAt > ttlMs)) }

/-- `DedupCache.complete`: resolve and remove the in-flight entry, store
the completed response, and prune. -/
def dedupComplete (ttlMs : Nat) (st : DedupState) (key : String) (resp : CachedResponse)
    (now : Nat) : DedupState :=
  let st₁ := { st with inflight := st.inflight.filter (fun k => k ≠ key) }
  let st₂ := { st₁ with completed := (key, resp) :: st₁.completed.filter (fun p => p.1 ≠ key) }
  dedupPrune ttlMs st₂ now

/-- `DedupCache.removeInflight`: reject waiters and drop the in-flight
entry. -/
def removeInflight (st : DedupState) (key : String) : DedupState :=
  { st with inflight := st.inflight.filter (fun k => k ≠ key) }

/-! ## HTTP handler flow (`src/server/http-handlers.ts`) -/

/-- The client wire dialect (`opts.clientFormat`). -/
inductive ClientFormat where
  | anthropic
  | openai
deriving DecidableEq, Repr

/-- Modelled from the spec: `formatAnthropicResponse`
(`src/server/format-anthropic.ts` is absent from the tree; only the
handler that uses it exists).  Spec §4.8: the neutral ProxyResponse is re-encoded
into the Messages-style body with the fresh request id. -/
def formatAnthropicResponse (resp : ProxyResponse) (requestId : String) : String :=
  "\x7b\"id\":" ++ jsonQuote requestId ++
  ",\"type\":\"message\",\"role\":\"assistant\",\"content\":[\x7b\"type\":\"text\",\"text\":" ++
  jsonQuote resp.content ++
  "\x7d],\"usage\":\x7b\"input_tokens\":" ++ natDigitsStr resp.inputTokens ++
  ",\"output_tokens\":" ++ natDigitsStr resp.outputTokens ++ "\x7d\x7d"

/-- Modelled from the spec: `formatOpenAiResponse`
(`src/server/format-openai.ts` is absent from the tree).  Spec §4.8: the
neutral ProxyResponse re-encoded into the ChatCompletions-style body. -/
def formatOpenAiResponse (resp : ProxyResponse) (requestId : String) : String :=
  "\x7b\"id\":" ++ jsonQuote requestId ++
  ",\"object\":\"chat.completion\",\"choices\":[\x7b\"index\":0,\"message\":\x7b\"role\":\"assistant\",\"content\":" ++
  jsonQuote resp.content ++
  "\x7d\x7d],\"usage\":\x7b\"prompt_tokens\":" ++ natDigitsStr resp.inputTokens ++
  ",\"completion_tokens\":" ++ natDigitsStr resp.outputTokens ++ "\x7d\x7d"

/-- `opts.formatResponse` composed with `JSON.stringify`, per dialect. -/
def formatResponse : ClientFormat → ProxyResponse → String → String
  | .anthropic => formatAnthropicResponse
  | .openai => formatOpenAiResponse

/-- What an in-flight waiter observes from the producer's promise. -/
inductive WaitOutcome where
  | resolved (c : CachedResponse)
  | rejected
deriving DecidableEq, Repr

/-- The outcome of `dispatch(proxyRequest, config)` for a non-streaming
request. -/
inductive DispatchOutcome where
  | ok (resp : ProxyResponse)
  | thrown
deriving DecidableEq, Repr

/-- The observable effects of one non-streaming `handleApiRequest` run:
the body bytes written to the client (if the handler itself responded),
the number of routing-log entries appended, whether the error propagated
to the outer error handler, and the dedup state afterwards. -/
structure NonStreamingRun where
  wroteBody : Option String
  logEntries : Nat
  threw : Bool
  dedup : DedupState
deriving DecidableEq, Repr

/-- The producer tail of the non-streaming path of `handleApiRequest`:
dispatch, append one routing-log entry, format the response body in the
client's dialect, store it in the dedup cache, write it; a thrown
dispatch removes the in-flight entry and propagates. -/
def runProducer (ttlMs : Nat) (st : DedupState) (key : String) (now : Nat)
    (disp : DispatchOutcome) (clientFormat : ClientFormat) (requestId : String) :
    NonStreamingRun :=
  match disp with
  | .ok resp =>
    let responseBody := formatResponse clientFormat resp requestId
    let st' := dedupComplete ttlMs st key
      { status := 200
        headersRaw := "\x7b\"Content-Type\":\"application/json\"\x7d"
        body := responseBody
        completedAt := now } now
    { wroteBody := some responseBody, logEntries := 1, threw := false, dedup := st' }
  | .thrown =>
    { wroteBody := Option.none, logEntries := 0, threw := true,
      dedup := removeInflight st key }

/-- The non-streaming path of `handleApiRequest`
(`src/server/http-handlers.ts`): completed-cache replay, in-flight
waiting, then the producer tail.  The dedup key is
`computeKey(parsed.messages, parsed.systemPrompt)`. -/
def handleNonStreaming (ttlMs : Nat) (st : DedupState) (messages : List NeutralMessage)
    (systemPrompt : Option String) (now : Nat) (wait : WaitOutcome)
    (disp : DispatchOutcome) (clientFormat : ClientFormat) (requestId : String) :
    NonStreamingRun :=
  let dedupKey := computeKey messages systemPrompt
  match getCompleted ttlMs st dedupKey now with
  | (some cached, st₁) =>
    { wroteBody := some cached.body, logEntries := 0, threw := false, dedup := st₁ }
  | (Option.none, st₁) =>
    let (isWaiting, st₂) := markInflight st₁ dedupKey
    if isWaiting then
      match wait with
      | .resolved c =>
        { wroteBody := some c.body, logEntries := 0, threw := false, dedup := st₂ }
      | .rejected => runProducer ttlMs st₂ dedupKey now disp clientFormat requestId
    else
      runProducer ttlMs st₂ dedupKey now disp clientFormat requestId

/-- How a started upstream stream terminates. -/
inductive StreamEnd where
  | normal
  | upstreamError
  | clientDisconnect
deriving DecidableEq, Repr

/-- The observable effects of `handleStreamingResponse`. -/
structure StreamingRun where
  wroteBytes : Bool
  logEntries : Nat
deriving DecidableEq, Repr

/-- `handleStreamingResponse` (`src/server/http-handlers.ts`): without an
upstream body it answers a 502 error and returns (no log entry); with a
body, the translation loop runs in a `try` whose `catch` swallows stream
errors and whose `finally` ends the response and appends exactly one
routing-log entry — for every way the stream ends. -/
def handleStreaming (hasBody : Bool) (endKind : StreamEnd) : StreamingRun :=
  if !hasBody then
    { wroteBytes := true, logEntries := 0 }
  else
    match endKind with
    | .normal => { wroteBytes := true, logEntries := 1 }
    | .upstreamError => { wroteBytes := true, logEntries := 1 }
    | .clientDisconnect => { wroteBytes := true, logEntries := 1 }

/-! ## Confidence calibration (`src/classifier/engine.ts`)

`calibrateConfidence` computes with JS floats; it is modelled over `ℝ`
with `Math.exp` as `Real.exp`. -/

/-- `calibrateConfidence` from `src/classifier/engine.ts`: the sigmoid of
the signed distance from the relevant tier boundary, with the default
steepness 10 used by `classifyPrompt`. -/
noncomputable def calibrateConfidence (composite : ℝ) (tier : ComplexityTier)
    (simpleMax complexMin : ℝ) (steepness : ℝ := 10) : ℝ :=
  let distance : ℝ :=
    match tier with
    | .simple => simpleMax - composite
    | .complex => composite - complexMin
    | .standard => min (composite - simpleMax) (complexMin - composite)
  1 / (1 + Real.exp (-steepness * distance))

/-- The signed boundary distance exactly as spec §4.2 words it: "For
simple: d = simpleMax − score.  For complex: d = score − complexMin.  For
standard: d = min(score − simpleMax, complexMin − score)." -/
noncomputable def specBoundaryDistance (score simpleMax complexMin : ℝ) :
    ComplexityTier → ℝ
  | .simple => simpleMax - score
  | .complex => score - complexMin
  | .standard => min (score - simpleMax) (complexMin - score)

/-! ## Theorems -/

/-- C9: for every composite score, tier, and configured thresholds, the
calibrated confidence equals `1/(1+exp(−10·d))` where `d` is the signed
distance from the relevant boundary (`simpleMax − score` for simple,
`score − complexMin` for complex, `min(score − simpleMax, complexMin −
score)` for standard); a score exactly on a boundary (`d = 0`) yields
confidence `0.5`. -/
theorem c9_confidence_sigmoid (composite simpleMax complexMin : ℝ)
    (tier : ComplexityTier) :
    calibrateConfidence composite tier simpleMax complexMin =
      1 / (1 + Real.exp (-(10 : ℝ) * specBoundaryDistance composite simpleMax complexMin tier)) ∧
    (specBoundaryDistance composite simpleMax complexMin tier = 0 →
      calibrateConfidence composite tier simpleMax complexMin = 1 / 2) := by
  constructor
  · cases tier <;> rfl
  · intro h
    cases tier <;>
      simp only [calibrateConfidence, specBoundaryDistance] at h ⊢ <;>
      rw [h] <;>
      norm_num

/-- Witness for C9: the default thresholds (0.30, 0.65) and a score
exactly on the simple boundary give confidence `0.5`. -/
theorem c9_confidence_sigmoid_witness :
    calibrateConfidence (3/10 : ℝ) ComplexityTier.simple (3/10) (65/100) = 1 / 2 :=
  (c9_confidence_sigmoid (3/10) (3/10) (65/100) ComplexityTier.simple).2
    (by simp [specBoundaryDistance])

/-- Looking up the id just inserted returns the inserted entry. -/
theorem sessionLookup_insert (sessions : SessionMap) (id : String) (e : SessionEntry) :
    sessionLookup (sessionInsert sessions id e) id = some e := by
  simp [sessionLookup, sessionInsert]

/-- `sessionGet` on a present, non-expired entry returns its pin and
leaves the map alone. -/
theorem sessionGet_fresh {timeoutMs : Nat} {sessions : SessionMap} {id : String}
    {now : Nat} {e : SessionEntry}
    (hfound : sessionLookup sessions id = some e)
    (hfresh : now - e.lastUsedAt ≤ timeoutMs) :
    sessionGet timeoutMs sessions id now = (some (e.modelId, e.tier), sessions) := by
  simp [sessionGet, hfound, Nat.not_lt.mpr hfresh]

/-- On a non-expired session, `set` returns the new pin on a strict tier
upgrade and the existing pin otherwise, and in both cases the stored
entry is the returned pin with `lastUsedAt` refreshed to `now`. -/
theorem sessionSet_fresh {timeoutMs : Nat} {sessions : SessionMap} {id : String}
    {now : Nat} {e : SessionEntry} (modelId : String) (tier : ComplexityTier)
    (hfound : sessionLookup sessions id = some e)
    (hfresh : now - e.lastUsedAt ≤ timeoutMs) :
    sessionSet timeoutMs sessions id modelId tier now =
      (if tierRank e.tier < tierRank tier then (modelId, tier) else (e.modelId, e.tier),
       sessionInsert sessions id
         { modelId := if tierRank e.tier < tierRank tier then modelId else e.modelId
           tier := if tierRank e.tier < tierRank tier then tier else e.tier
           lastUsedAt := now }) := by
  rw [sessionSet, sessionGet_fresh hfound hfresh]
  by_cases h : tierRank e.tier < tierRank tier <;> simp [h]

/-- The tier pinned by one non-expired `set` is at least the prior tier. -/
theorem sessionSet_rank_mono {timeoutMs : Nat} {sessions : SessionMap} {id : String}
    {now : Nat} {e : SessionEntry} (modelId : String) (tier : ComplexityTier)
    (hfound : sessionLookup sessions id = some e)
    (hfresh : now - e.lastUsedAt ≤ timeoutMs) :
    tierRank e.tier ≤ tierRank (sessionSet timeoutMs sessions id modelId tier now).1.2 := by
  rw [sessionSet_fresh modelId tier hfound hfresh]
  by_cases h : tierRank e.tier < tierRank tier <;> simp [h]
  omega

/-- After any `set`, the stored entry's pin is the returned pin and its
`lastUsedAt` is the call's `now`. -/
theorem sessionSet_lookup (timeoutMs : Nat) (sessions : SessionMap) (id modelId : String)
    (tier : ComplexityTier) (now : Nat) :
    sessionLookup (sessionSet timeoutMs sessions id modelId tier now).2 id =
      some { modelId := (sessionSet timeoutMs sessions id modelId tier now).1.1
             tier := (sessionSet timeoutMs sessions id modelId tier now).1.2
             lastUsedAt := now } := by
  rw [sessionSet]
  rcases hget : sessionGet timeoutMs sessions id now with ⟨existing, sessions₁⟩
  rcases existing with _ | ⟨exModelId, exTier⟩
  · simp [sessionLookup_insert]
  · by_cases h : tierRank exTier < tierRank tier <;> simp [h, sessionLookup_insert]

/-- The successive `set` calls of a recorded sequence all find the
session non-expired: the first call fits the starting map, and each later
call runs within `timeoutMs` of the previous one. -/
def CallsFit (timeoutMs : Nat) : SessionMap → String → List SetCall → Prop
  | _, _, [] => True
  | sessions, id, c :: rest =>
    (∀ e, sessionLookup sessions id = some e → c.now - e.lastUsedAt ≤ timeoutMs) ∧
    CallsFit timeoutMs (sessionSet timeoutMs sessions id c.modelId c.tier c.now).2 id rest

/-- Over a fitting sequence of `set` calls, the pinned tiers observed
call-by-call never decrease. -/
theorem runSets_chain_mono (timeoutMs : Nat) (id : String) :
    ∀ (calls : List SetCall) (sessions : SessionMap),
      CallsFit timeoutMs sessions id calls →
      List.Chain' (fun a b => tierRank (Prod.snd a) ≤ tierRank (Prod.snd b))
        (runSets timeoutMs sessions id calls).1
  | [], _, _ => List.chain'_nil
  | [_], _, _ => List.chain'_singleton _
  | c :: c' :: rest, sessions, hfit => by
    have h₁ := sessionSet_lookup timeoutMs sessions id c.modelId c.tier c.now
    have hfit' := hfit.2
    have hchain := runSets_chain_mono timeoutMs id (c' :: rest)
      (sessionSet timeoutMs sessions id c.modelId c.tier c.now).2 hfit'
    have hstep := sessionSet_rank_mono (e := { modelId := _, tier := _, lastUsedAt := c.now })
      c'.modelId c'.tier h₁ (hfit'.1 _ h₁)
    simp only [runSets] at hchain ⊢
    exact List.Chain'.cons hstep hchain

/-- C2: on a non-expired session, `set` replaces the pin only when the
new tier is strictly greater in the simple < standard < complex order,
keeps the existing model and tier (refreshing `lastUsedAt`) on an
equal-or-lesser tier, always returns the effective pin after the call,
and over any fitting sequence of `set` calls the observed pinned tier is
non-decreasing. -/
theorem c2_session_pin_monotonicity :
    (∀ (timeoutMs : Nat) (sessions : SessionMap) (id modelId : String)
        (tier : ComplexityTier) (now : Nat) (e : SessionEntry),
      sessionLookup sessions id = some e →
      now - e.lastUsedAt ≤ timeoutMs →
      ((tierRank e.tier < tierRank tier →
          sessionSet timeoutMs sessions id modelId tier now =
            ((modelId, tier),
             sessionInsert sessions id
               { modelId := modelId, tier := tier, lastUsedAt := now })) ∧
       (tierRank tier ≤ tierRank e.tier →
          sessionSet timeoutMs sessions id modelId tier now =
            ((e.modelId, e.tier),
             sessionInsert sessions id
               { modelId := e.modelId, tier := e.tier, lastUsedAt := now })) ∧
       sessionLookup (sessionSet timeoutMs sessions id modelId tier now).2 id =
         some { modelId := (sessionSet timeoutMs sessions id modelId tier now).1.1
                tier := (sessionSet timeoutMs sessions id modelId tier now).1.2
                lastUsedAt := now } ∧
       tierRank e.tier ≤ tierRank (sessionSet timeoutMs sessions id modelId tier now).1.2)) ∧
    (∀ (timeoutMs : Nat) (sessions : SessionMap) (id : String) (calls : List SetCall),
      CallsFit timeoutMs sessions id calls →
      List.Chain' (fun a b => tierRank (Prod.snd a) ≤ tierRank (Prod.snd b))
        (runSets timeoutMs sessions id calls).1) := by
  constructor
  · intro timeoutMs sessions id modelId tier now e hfound hfresh
    refine ⟨?_, ?_, sessionSet_lookup .., sessionSet_rank_mono modelId tier hfound hfresh⟩
    · intro hlt
      rw [sessionSet_fresh modelId tier hfound hfresh]
      simp [hlt]
    · intro hle
      rw [sessionSet_fresh modelId tier hfound hfresh]
      simp [Nat.not_lt.mpr hle]
  · intro timeoutMs sessions id calls hfit
    exact runSets_chain_mono timeoutMs id calls sessions hfit

/-- Witness for C2: a session pinned at `standard` keeps its pin under a
`simple` set, and a three-call sequence observes non-decreasing tiers. -/
theorem c2_session_pin_monotonicity_witness :
    sessionSet 1800000
        [("s", ⟨"claude-sonnet-4-5", ComplexityTier.standard, 1000, Option.none⟩)]
        "s" "gemini-2.5-flash" ComplexityTier.simple 2000 =
      (("claude-sonnet-4-5", ComplexityTier.standard),
       sessionInsert
         [("s", ⟨"claude-sonnet-4-5", ComplexityTier.standard, 1000, Option.none⟩)]
         "s" ⟨"claude-sonnet-4-5", ComplexityTier.standard, 2000, Option.none⟩) ∧
    List.Chain' (fun a b => tierRank (Prod.snd a) ≤ tierRank (Prod.snd b))
      (runSets 1800000 [] "s"
        [⟨"m1", ComplexityTier.standard, 10⟩,
         ⟨"m2", ComplexityTier.simple, 20⟩,
         ⟨"m3", ComplexityTier.complex, 30⟩]).1 := by
  constructor
  · exact (c2_session_pin_monotonicity.1 1800000
      [("s", ⟨"claude-sonnet-4-5", ComplexityTier.standard, 1000, Option.none⟩)]
      "s" "gemini-2.5-flash" ComplexityTier.simple 2000
      ⟨"claude-sonnet-4-5", ComplexityTier.standard, 1000, Option.none⟩
      (by decide) (by decide)).2.1 (by decide)
  · exact c2_session_pin_monotonicity.2 1800000 [] "s"
      [⟨"m1", ComplexityTier.standard, 10⟩,
       ⟨"m2", ComplexityTier.simple, 20⟩,
       ⟨"m3", ComplexityTier.complex, 30⟩]
      ⟨by decide, by decide, by decide, trivial⟩

/-- A found catalog entry has the id it was looked up under. -/
theorem getById_eq_id {registry : ModelRegistry} {id : String} {m : ModelSpec}
    (h : getById registry id = some m) : m.id = id := by
  have := List.find?_some h
  simpa using this

/-- A model returned by preference resolution is not rate-limited and its
provider is configured. -/
theorem resolvePreference_available {registry : ModelRegistry} {config : ThrottleConfig}
    {rl : RateLimiterState} {now : Nat} {m : ModelSpec} :
    ∀ {ids : List String}, resolvePreference ids registry config rl now = some m →
      isProviderConfigured config m.provider = true ∧ isRateLimited rl now m.id = false
  | [], h => by simp [resolvePreference] at h
  | id :: rest, h => by
    rw [resolvePreference] at h
    rcases hid : getById registry id with _ | m'
    · rw [hid] at h
      exact resolvePreference_available h
    · rw [hid] at h
      dsimp only at h
      by_cases hc : (isProviderConfigured config m'.provider && !isRateLimited rl now id) = true
      · rw [if_pos hc] at h
        cases h
        have h₁ := (Bool.and_eq_true _ _).mp hc
        refine ⟨h₁.1, ?_⟩
        rw [getById_eq_id hid]
        simpa using h₁.2
      · rw [if_neg hc] at h
        exact resolvePreference_available h

/-- The min-cost fold over a list returns the accumulator or a list
element. -/
theorem foldl_cheapest_mem {m : ModelSpec} :
    ∀ (l : List ModelSpec) (acc : Option ModelSpec),
      l.foldl
        (fun acc x =>
          match acc with
          | Option.none => some x
          | some b => if x.inputCostPerMTok < b.inputCostPerMTok then some x else some b)
        acc = some m →
      acc = some m ∨ m ∈ l
  | [], acc, h => by simpa using h
  | x :: xs, acc, h => by
    rw [List.foldl_cons] at h
    rcases foldl_cheapest_mem xs _ h with h' | h'
    · rcases acc with _ | b
      · simp at h'
        simp [h']
      · simp only at h'
        by_cases hlt : x.inputCostPerMTok < b.inputCostPerMTok
        · rw [if_pos hlt] at h'
          cases h'
          simp
        · rw [if_neg hlt] at h'
          simp [h']
    · simp [h']

/-- The global fallback also only picks configured, not-rate-limited
models. -/
theorem getCheapestAvailable_available {registry : ModelRegistry} {config : ThrottleConfig}
    {rl : RateLimiterState} {now : Nat} {m : ModelSpec}
    (h : getCheapestAvailable registry config rl now = some m) :
    isProviderConfigured config m.provider = true ∧ isRateLimited rl now m.id = false := by
  rw [getCheapestAvailable] at h
  rcases foldl_cheapest_mem _ _ h with h' | h'
  · cases h'
  · have := List.mem_filter.mp h'
    have hb := (Bool.and_eq_true _ _).mp this.2
    exact ⟨hb.1, by simpa using hb.2⟩

/-- Without a model-forcing override, a successful `routeRequest` returns
the effective tier, and its model comes from preference resolution on
`routingTable[mode][effectiveTier]` or, if that is exhausted, from the
global cheapest-available fallback. -/
theorem routeRequest_ok_shape {classification : ClassificationResult} {mode : RoutingMode}
    {override : OverrideResult} {registry : ModelRegistry} {config : ThrottleConfig}
    {routingTable : RoutingTable} {rl : RateLimiterState} {now : Nat} {d : RoutingDecision}
    (hov : ¬(override.kind ≠ OverrideKind.none ∧ override.forcedModelId.isSome))
    (h : routeRequest classification mode override registry config routingTable rl now =
      Except.ok d) :
    d.tier = computeEffectiveTier classification override ∧
    (resolvePreference (routingTable mode (computeEffectiveTier classification override))
        registry config rl now = some d.model ∨
      (resolvePreference (routingTable mode (computeEffectiveTier classification override))
          registry config rl now = Option.none ∧
        getCheapestAvailable registry config rl now = some d.model)) := by
  rw [routeRequest, if_neg hov] at h
  by_cases hempty :
      (routingTable mode (computeEffectiveTier classification override)).isEmpty
  · rw [if_pos hempty] at h
    cases h
  · rw [if_neg hempty] at h
    rcases hres : resolvePreference
        (routingTable mode (computeEffectiveTier classification override))
        registry config rl now with _ | model
    · rw [hres] at h
      rcases hfb : getCheapestAvailable registry config rl now with _ | fb
      · rw [hfb] at h
        cases h
      · rw [hfb] at h
        cases h
        exact ⟨rfl, Or.inr ⟨rfl, rfl⟩⟩
    · rw [hres] at h
      cases h
      exact ⟨rfl, Or.inl rfl⟩

/-- C1: without a model-forcing override, the router resolves
`routingTable[mode][effectiveTier]` in order, skipping unconfigured
providers and rate-limited models, and returns the first survivor (or the
global cheapest-available fallback when the list is exhausted); the
chosen model is never rate-limited — hence a rate-limited model is only
ever chosen in the spec's residual case, vacuously. -/
theorem c1_rate_limit_filtering {classification : ClassificationResult} {mode : RoutingMode}
    {override : OverrideResult} {registry : ModelRegistry} {config : ThrottleConfig}
    {routingTable : RoutingTable} {rl : RateLimiterState} {now : Nat} {d : RoutingDecision}
    (hov : ¬(override.kind ≠ OverrideKind.none ∧ override.forcedModelId.isSome))
    (h : routeRequest classification mode override registry config routingTable rl now =
      Except.ok d) :
    (resolvePreference (routingTable mode (computeEffectiveTier classification override))
        registry config rl now = some d.model ∨
      (resolvePreference (routingTable mode (computeEffectiveTier classification override))
          registry config rl now = Option.none ∧
        getCheapestAvailable registry config rl now = some d.model)) ∧
    isProviderConfigured config d.model.provider = true ∧
    isRateLimited rl now d.model.id = false := by
  obtain ⟨-, hsrc⟩ := routeRequest_ok_shape hov h
  refine ⟨hsrc, ?_⟩
  rcases hsrc with hres | ⟨-, hfb⟩
  · exact resolvePreference_available hres
  · exact getCheapestAvailable_available hfb

/-- C3: with confidence below 0.70 and a tier below complex, and no
model-forcing override, the selected tier is at least one step above the
classification's tier. -/
theorem c3_confidence_step_up {classification : ClassificationResult} {mode : RoutingMode}
    {override : OverrideResult} {registry : ModelRegistry} {config : ThrottleConfig}
    {routingTable : RoutingTable} {rl : RateLimiterState} {now : Nat} {d : RoutingDecision}
    (hconf : classification.confidence < mkRat 7 10)
    (htier : classification.tier ≠ ComplexityTier.complex)
    (hov : ¬(override.kind ≠ OverrideKind.none ∧ override.forcedModelId.isSome))
    (h : routeRequest classification mode override registry config routingTable rl now =
      Except.ok d) :
    tierRank classification.tier + 1 ≤ tierRank d.tier := by
  obtain ⟨hd, -⟩ := routeRequest_ok_shape hov h
  rw [hd, computeEffectiveTier]
  rcases hcase : classification.tier with _ | _ | _
  · split_ifs <;> first | decide | simp_all
  · split_ifs <;> first | decide | simp_all
  · exact absurd hcase htier

/-! ### Concrete fixtures for witnesses and counterexamples -/

/-- A Gemini Flash catalog entry (costs per the published catalog). -/
def flashSpec : ModelSpec :=
  { id := "gemini-2.5-flash", displayName := "Gemini 2.5 Flash", provider := .google,
    inputCostPerMTok := mkRat 3 10, outputCostPerMTok := mkRat 5 2, maxContextTokens := 1048576 }

/-- A Claude Haiku catalog entry. -/
def haikuSpec : ModelSpec :=
  { id := "claude-haiku-4-5", displayName := "Claude Haiku 4.5", provider := .anthropic,
    inputCostPerMTok := 1, outputCostPerMTok := 5, maxContextTokens := 200000 }

/-- A Claude Sonnet catalog entry. -/
def sonnetSpec : ModelSpec :=
  { id := "claude-sonnet-4-5", displayName := "Claude Sonnet 4.5", provider := .anthropic,
    inputCostPerMTok := 3, outputCostPerMTok := 15, maxContextTokens := 200000 }

/-- A three-model catalog. -/
def sampleRegistry : ModelRegistry := [flashSpec, haikuSpec, sonnetSpec]

/-- A configuration with Anthropic configured and Google not (as when only
an Anthropic key is supplied). -/
def anthropicOnlyConfig : ThrottleConfig :=
  { mode := .standard
    anthropic := { apiKey := "test-key", setupToken := "", preferSetupToken := true }
    googleApiKey := "", openaiApiKey := "", deepseekApiKey := "", xaiApiKey := ""
    moonshotApiKey := "", mistralApiKey := "", ollamaApiKey := "", minimaxApiKey := "" }

/-- A configuration with both Anthropic and Google configured. -/
def fullConfig : ThrottleConfig :=
  { anthropicOnlyConfig with googleApiKey := "test-key" }

/-- A small routing table in the shape of `data/routing-table.json`. -/
def sampleTable : RoutingTable := fun _mode tier =>
  match tier with
  | .simple => ["gemini-2.5-flash"]
  | .standard => ["claude-haiku-4-5", "gemini-2.5-flash"]
  | .complex => ["claude-sonnet-4-5", "claude-haiku-4-5"]

/-- A confident standard classification (score 0.40, confidence 0.95). -/
def standardClassification : ClassificationResult :=
  { score := mkRat 2 5, tier := ComplexityTier.standard, confidence := mkRat 95 100 }

/-- An unconfident simple classification (score 0.10, confidence 0.40). -/
def unsureSimpleClassification : ClassificationResult :=
  { score := mkRat 1 10, tier := ComplexityTier.simple, confidence := mkRat 2 5 }

/-- The absent override. -/
def noOverride : OverrideResult := { kind := OverrideKind.none }

/-- A rate-limiter state in which `claude-haiku-4-5` is cooling until
t = 100 000. -/
def haikuLimited : RateLimiterState := [("claude-haiku-4-5", 100000)]

/-- Witness for C1: with the first standard-tier preference
(`claude-haiku-4-5`) rate-limited, routing a confident standard
classification picks the next survivor `gemini-2.5-flash`, which is
configured and not rate-limited. -/
theorem c1_rate_limit_filtering_witness :
    (resolvePreference
        (sampleTable RoutingMode.standard
          (computeEffectiveTier standardClassification noOverride))
        sampleRegistry fullConfig haikuLimited 50000 = some flashSpec ∨
      (resolvePreference
          (sampleTable RoutingMode.standard
            (computeEffectiveTier standardClassification noOverride))
          sampleRegistry fullConfig haikuLimited 50000 = Option.none ∧
        getCheapestAvailable sampleRegistry fullConfig haikuLimited 50000 =
          some flashSpec)) ∧
    isProviderConfigured fullConfig flashSpec.provider = true ∧
    isRateLimited haikuLimited 50000 flashSpec.id = false :=
  @c1_rate_limit_filtering standardClassification RoutingMode.standard noOverride
    sampleRegistry fullConfig sampleTable haikuLimited 50000
    ⟨flashSpec, ComplexityTier.standard, RoutingMode.standard, OverrideKind.none,
      "Mode=standard, Tier=standard, Score=0.400 => Gemini 2.5 Flash"⟩
    (by decide) (by decide)

/-- Witness for C3: an unconfident (0.40) simple classification with no
override routes one tier up (to `standard`). -/
theorem c3_confidence_step_up_witness :
    tierRank unsureSimpleClassification.tier + 1 ≤ tierRank ComplexityTier.standard :=
  @c3_confidence_step_up unsureSimpleClassification RoutingMode.standard noOverride
    sampleRegistry fullConfig sampleTable [] 0
    ⟨haikuSpec, ComplexityTier.standard, RoutingMode.standard, OverrideKind.none,
      "Mode=standard, Tier=standard, Score=0.100 (confidence step-up from simple (confidence=0.40)) => Claude Haiku 4.5"⟩
    (by decide) (by decide) (by decide) (by decide)

/-- C5: (i) on a primary 429/401 with a fallback available,
`dispatchAnthropic` marks the primary key type cooling, retries exactly
once (two attempts total) with the fallback key, and annotates the result
`failover := true` with the fallback key type; (ii) a fresh cooldown mark
makes the key type report cooling for the full 60 000 ms window; (iii)
while a key type T is cooling, T is not selected as primary whenever the
other key is configured and not itself cooling; (iv) a cooling key type
is never offered as fallback. -/
theorem c5_dual_key_failover :
    (∀ (config : ThrottleConfig) (st : DualKeyState) (now status : Nat)
        (r : ProxyResponse) (p f : KeyEntry),
      status = 429 ∨ status = 401 →
      selectKeys config st now = (some p, some f) →
      dispatchAnthropic config st now (CallOutcome.failure status) (CallOutcome.success r) =
        { result := Except.ok { r with keyType := some f.type, failover := true }
          state := markCooldown st p.type now 60000
          attempts := 2 }) ∧
    (∀ (st : DualKeyState) (T : AnthropicKeyType) (now now' : Nat),
      now' < now + 60000 →
      isCoolingDown (markCooldown st T now 60000) T now' = true) ∧
    (∀ (config : ThrottleConfig) (st : DualKeyState) (now : Nat) (T : AnthropicKeyType)
        (e : KeyEntry),
      isCoolingDown st T now = true →
      keyConfigured config T.other = true →
      isCoolingDown st T.other now = false →
      (selectKeys config st now).1 = some e →
      e.type ≠ T) ∧
    (∀ (config : ThrottleConfig) (st : DualKeyState) (now : Nat) (f : KeyEntry),
      (selectKeys config st now).2 = some f →
      isCoolingDown st f.type now = false) := by
  refine ⟨?_, ?_, ?_, ?_⟩
  · intro config st now status r p f hs hsel
    rw [dispatchAnthropic, hsel]
    have hcond : (status = 429 ∨ status = 401) ∧ (some f).isSome := ⟨hs, rfl⟩
    dsimp only
    rw [if_pos hcond]
  · intro st T now now' hwin
    cases T <;>
      simp [isCoolingDown, markCooldown] <;>
      omega
  · intro config st now T e hcool hconf hother hsel hT
    subst hT
    by_cases hS : config.anthropic.setupToken = "" <;>
    by_cases hE : config.anthropic.apiKey = "" <;>
    by_cases hP : config.anthropic.preferSetupToken = true <;>
    by_cases hSC : isCoolingDown st AnthropicKeyType.setupToken now = true <;>
    by_cases hEC : isCoolingDown st AnthropicKeyType.enterprise now = true <;>
    simp_all [selectKeys, keyConfigured, AnthropicKeyType.other] <;>
    (try cases hsel) <;>
    simp_all
  · intro config st now f hsel
    by_cases hS : config.anthropic.setupToken = "" <;>
    by_cases hE : config.anthropic.apiKey = "" <;>
    by_cases hP : config.anthropic.preferSetupToken = true <;>
    by_cases hSC : isCoolingDown st AnthropicKeyType.setupToken now = true <;>
    by_cases hEC : isCoolingDown st AnthropicKeyType.enterprise now = true <;>
    simp_all [selectKeys, keyConfigured, AnthropicKeyType.other] <;>
    (try cases hsel) <;>
    simp_all

/-- A configuration with both Anthropic keys present (setup-token
preferred). -/
def dualKeyConfig : ThrottleConfig :=
  { fullConfig with
      anthropic :=
        { apiKey := "sk-ant-api03-enterprise", setupToken := "sk-ant-setup",
          preferSetupToken := true } }

/-- Witness for C5: a primary (setup-token) 429 with both keys configured
fails over to enterprise in exactly two attempts, cooling setup-token for
60 s; a key selection with setup-token cooling picks enterprise as
primary; a selection with nothing cooling offers a non-cooling
fallback. -/
theorem c5_dual_key_failover_witness :
    dispatchAnthropic dualKeyConfig {} 1000
        (CallOutcome.failure 429)
        (CallOutcome.success { content := "hi", inputTokens := 10, outputTokens := 5 }) =
      { result := Except.ok
          { content := "hi", inputTokens := 10, outputTokens := 5,
            keyType := some AnthropicKeyType.enterprise, failover := true }
        state := markCooldown {} AnthropicKeyType.setupToken 1000 60000
        attempts := 2 } ∧
    isCoolingDown (markCooldown {} AnthropicKeyType.setupToken 1000 60000)
      AnthropicKeyType.setupToken 30000 = true ∧
    KeyEntry.type { key := "sk-ant-api03-enterprise", type := AnthropicKeyType.enterprise } ≠
      AnthropicKeyType.setupToken ∧
    isCoolingDown { setupTokenCooldownUntil := 0, enterpriseCooldownUntil := 0 }
      (KeyEntry.type { key := "sk-ant-api03-enterprise", type := AnthropicKeyType.enterprise })
      50000 = false := by
  refine ⟨?_, ?_, ?_, ?_⟩
  · exact c5_dual_key_failover.1 dualKeyConfig {} 1000 429
      { content := "hi", inputTokens := 10, outputTokens := 5 }
      { key := "sk-ant-setup", type := AnthropicKeyType.setupToken }
      { key := "sk-ant-api03-enterprise", type := AnthropicKeyType.enterprise }
      (Or.inl rfl) (by decide)
  · exact c5_dual_key_failover.2.1 {} AnthropicKeyType.setupToken 1000 30000 (by decide)
  · exact c5_dual_key_failover.2.2.1 dualKeyConfig
      { setupTokenCooldownUntil := 100000, enterpriseCooldownUntil := 0 } 50000
      AnthropicKeyType.setupToken
      { key := "sk-ant-api03-enterprise", type := AnthropicKeyType.enterprise }
      (by decide) (by decide) (by decide) (by decide)
  · exact c5_dual_key_failover.2.2.2 dualKeyConfig
      { setupTokenCooldownUntil := 0, enterpriseCooldownUntil := 0 } 50000
      { key := "sk-ant-api03-enterprise", type := AnthropicKeyType.enterprise }
      (by decide)

/-- An empty routing log (no parent requests recorded). -/
def emptyLog : LogReaderView := fun _ => Option.none

/-- A confident simple classification (score 0.10, confidence 0.95). -/
def confidentSimpleClassification : ClassificationResult :=
  { score := mkRat 1 10, tier := ComplexityTier.simple, confidence := mkRat 95 100 }

/-- Counterexample to C6: with Google unconfigured, a heartbeat (`ping`)
request is still routed to the fixed `gemini-2.5-flash` — whose provider
is not even configured — while the cheapest configured model is
`claude-haiku-4-5`. -/
theorem c6_heartbeat_not_cheapest_configured :
    routeRequest confidentSimpleClassification RoutingMode.standard
        (detectOverrides [⟨"user", "ping"⟩] Option.none Option.none emptyLog false)
        sampleRegistry anthropicOnlyConfig sampleTable [] 0 =
      Except.ok ⟨flashSpec, ComplexityTier.simple, RoutingMode.standard,
        OverrideKind.heartbeat, "Override heartbeat: forced to Gemini 2.5 Flash"⟩ ∧
    getCheapestAvailable sampleRegistry anthropicOnlyConfig [] 0 = some haikuSpec ∧
    haikuSpec ≠ flashSpec ∧
    isProviderConfigured anthropicOnlyConfig flashSpec.provider = false := by
  decide

/-- C6 (amended): a request whose last user utterance matches a
heartbeat/summary pattern gets the heartbeat override with the fixed
model id `gemini-2.5-flash` (the head of the price-ordered
`MODEL_HIERARCHY`), and the router forces that catalog model regardless
of provider configuration or rate-limit state; the id is not resolved to
the cheapest *configured* model. -/
theorem c6_heartbeat_fixed_model (messages : List NeutralMessage)
    (forceModel parentRequestId : Option String) (logReader : LogReaderView)
    (hasTools : Bool)
    (hhb : isHeartbeatOrSummary (lastUserText messages) = true) :
    detectOverrides messages forceModel parentRequestId logReader hasTools =
      { kind := OverrideKind.heartbeat, forcedModelId := some "gemini-2.5-flash" } ∧
    ∀ (cls : ClassificationResult) (mode : RoutingMode) (registry : ModelRegistry)
      (config : ThrottleConfig) (table : RoutingTable) (rl : RateLimiterState)
      (now : Nat) (m : ModelSpec),
      getById registry "gemini-2.5-flash" = some m →
      routeRequest cls mode
          (detectOverrides messages forceModel parentRequestId logReader hasTools)
          registry config table rl now =
        Except.ok ⟨m, cls.tier, mode, OverrideKind.heartbeat,
          "Override heartbeat: forced to " ++ m.displayName⟩ := by
  have hdet : detectOverrides messages forceModel parentRequestId logReader hasTools =
      { kind := OverrideKind.heartbeat, forcedModelId := some "gemini-2.5-flash" } := by
    rw [detectOverrides.eq_def]
    simp only [hhb]
    rfl
  refine ⟨hdet, ?_⟩
  intro cls mode registry config table rl now m hm
  rw [hdet, routeRequest, if_pos (by exact ⟨by decide, rfl⟩)]
  simp only [Option.getD_some, hm]
  rfl

/-- Witness for C6 (amended): the `ping` heartbeat forces the flash
catalog entry even under the Anthropic-only configuration. -/
theorem c6_heartbeat_fixed_model_witness :
    detectOverrides [⟨"user", "ping"⟩] Option.none Option.none emptyLog false =
      { kind := OverrideKind.heartbeat, forcedModelId := some "gemini-2.5-flash" } ∧
    routeRequest confidentSimpleClassification RoutingMode.eco
        (detectOverrides [⟨"user", "ping"⟩] Option.none Option.none emptyLog false)
        sampleRegistry anthropicOnlyConfig sampleTable [] 0 =
      Except.ok ⟨flashSpec, ComplexityTier.simple, RoutingMode.eco,
        OverrideKind.heartbeat, "Override heartbeat: forced to " ++ flashSpec.displayName⟩ := by
  have h := c6_heartbeat_fixed_model [⟨"user", "ping"⟩] Option.none Option.none emptyLog
    false (by decide)
  exact ⟨h.1, h.2 confidentSimpleClassification RoutingMode.eco sampleRegistry
    anthropicOnlyConfig sampleTable [] 0 flashSpec (by decide)⟩

/-- Counterexample to C7: a tool-calling request with a trivial prompt
classified simple but with low confidence (0.40 < 0.70) is routed to
tier `complex`, not `standard` — the confidence step-up fires on top of
the tool-calling floor. -/
theorem c7_tool_floor_low_confidence_goes_complex :
    routeRequest unsureSimpleClassification RoutingMode.standard
        { kind := OverrideKind.tool_calling } sampleRegistry fullConfig sampleTable [] 0 =
      Except.ok ⟨sonnetSpec, ComplexityTier.complex, RoutingMode.standard,
        OverrideKind.tool_calling,
        "Mode=standard, Tier=complex, Score=0.100 (tool_calling tier floor, confidence step-up from simple (confidence=0.40)) => Claude Sonnet 4.5"⟩ ∧
    ComplexityTier.complex ≠ ComplexityTier.standard := by
  decide

/-- C7 (amended): a request carrying non-empty tools and matching no
higher-precedence override (heartbeat, force-model, sub-agent) gets the
`tool_calling` override, and — *when the classification's confidence is
at least 0.70* — a simple-classified request is raised exactly to the
`standard` tier with reasoning that mentions the tool_calling tier floor
(with lower confidence the step-up raises it further, to `complex`). -/
theorem c7_tool_calling_floor (messages : List NeutralMessage) (logReader : LogReaderView)
    (cls : ClassificationResult) (mode : RoutingMode) (registry : ModelRegistry)
    (config : ThrottleConfig) (table : RoutingTable) (rl : RateLimiterState) (now : Nat)
    (m : ModelSpec)
    (hhb : isHeartbeatOrSummary (lastUserText messages) = false)
    (h1 : startsWithLit "/opus" (jsToLower (jsTrim (lastUserText messages))) = false)
    (h2 : startsWithLit "/sonnet" (jsToLower (jsTrim (lastUserText messages))) = false)
    (h3 : startsWithLit "/flash" (jsToLower (jsTrim (lastUserText messages))) = false)
    (htier : cls.tier = ComplexityTier.simple)
    (hconf : ¬(cls.confidence < mkRat 7 10))
    (hres : resolvePreference (table mode ComplexityTier.standard) registry config rl now =
      some m) :
    detectOverrides messages Option.none Option.none logReader true =
      { kind := OverrideKind.tool_calling } ∧
    ∃ d, routeRequest cls mode { kind := OverrideKind.tool_calling } registry config table
        rl now = Except.ok d ∧
      d.tier = ComplexityTier.standard ∧
      ∃ a b : String,
        d.reasoning.data = a.data ++ ("tool_calling tier floor").data ++ b.data := by
  obtain ⟨s, t, c⟩ := cls
  simp only at htier hconf hres ⊢
  subst htier
  constructor
  · rw [detectOverrides.eq_def]
    simp [hhb, h1, h2, h3]
  · have heff : computeEffectiveTier ⟨s, ComplexityTier.simple, c⟩
        { kind := OverrideKind.tool_calling } = ComplexityTier.standard := by
      simp [computeEffectiveTier, tierRank, hconf]
    have hne : ¬((table mode ComplexityTier.standard).isEmpty = true) := by
      intro hemp
      rw [List.isEmpty_iff] at hemp
      rw [hemp, resolvePreference] at hres
      cases hres
    rw [routeRequest, if_neg (by simp), heff, if_neg hne, hres]
    refine ⟨_, rfl, rfl, ?_⟩
    refine ⟨"Mode=" ++ mode.render ++ ", Tier=" ++ ComplexityTier.standard.render
      ++ ", Score=" ++ ratToFixed s 3 ++ " (", ")" ++ " => " ++ m.displayName, ?_⟩
    have hnostep : ¬(ComplexityTier.standard ≠ ComplexityTier.simple ∧ c < mkRat 7 10) :=
      fun hh => hconf hh.2
    have htool : ({ kind := OverrideKind.tool_calling, forcedModelId := Option.none } :
        OverrideResult).kind = OverrideKind.tool_calling := rfl
    rw [if_neg hnostep, if_pos htool, if_pos htool]
    have hlen : ((["tool_calling tier floor"] : List String) ++ []).length > 0 := by decide
    have hint : String.intercalate ", " (["tool_calling tier floor"] ++ ([] : List String)) =
        "tool_calling tier floor" := rfl
    rw [if_pos hlen, hint]
    simp only [String.data_append, List.append_assoc]

/-- Witness for C7 (amended): a confidently-simple prompt with tools and
no other override is floored to `standard` with the floor named in the
reasoning. -/
theorem c7_tool_calling_floor_witness :
    detectOverrides [⟨"user", "Write a function"⟩] Option.none Option.none emptyLog true =
      { kind := OverrideKind.tool_calling } ∧
    ∃ d, routeRequest confidentSimpleClassification RoutingMode.standard
        { kind := OverrideKind.tool_calling } sampleRegistry fullConfig sampleTable [] 0 =
          Except.ok d ∧
      d.tier = ComplexityTier.standard ∧
      ∃ a b : String,
        d.reasoning.data = a.data ++ ("tool_calling tier floor").data ++ b.data :=
  c7_tool_calling_floor [⟨"user", "Write a function"⟩] emptyLog
    confidentSimpleClassification RoutingMode.standard sampleRegistry fullConfig
    sampleTable [] 0 haikuSpec
    (by decide) (by decide) (by decide) (by decide) (by decide) (by decide) (by decide)

/-- The dedup key as `handleApiRequest` computes it: from the parsed
messages and system prompt only — the client dialect (`opts.clientFormat`)
does not enter the key. -/
def requestDedupKey (_clientFormat : ClientFormat) (messages : List NeutralMessage)
    (systemPrompt : Option String) : String :=
  computeKey messages systemPrompt

/-- A sample completed cache entry. -/
def cachedOk : CachedResponse :=
  { status := 200, headersRaw := "\x7b\"Content-Type\":\"application/json\"\x7d",
    body := "cached-body", completedAt := 100 }

set_option maxRecDepth 40000 in
/-- Counterexample to C4: a non-streaming request served from the dedup
completed cache writes its bytes to the client (the cached body) but
appends zero routing-log entries. -/
theorem c4_dedup_hit_writes_no_log :
    (handleNonStreaming 30000
        { completed := [(computeKey [⟨"user", "hello"⟩] Option.none, cachedOk)], inflight := [] }
        [⟨"user", "hello"⟩] Option.none 110 WaitOutcome.rejected
        (DispatchOutcome.ok { content := "x", inputTokens := 1, outputTokens := 1 })
        ClientFormat.anthropic "req-2").wroteBody = some "cached-body" ∧
    (handleNonStreaming 30000
        { completed := [(computeKey [⟨"user", "hello"⟩] Option.none, cachedOk)], inflight := [] }
        [⟨"user", "hello"⟩] Option.none 110 WaitOutcome.rejected
        (DispatchOutcome.ok { content := "x", inputTokens := 1, outputTokens := 1 })
        ClientFormat.anthropic "req-2").logEntries = 0 := by
  constructor <;> decide

/-- C4 (amended): exactly one routing-log entry is appended by a
non-streaming request that reaches the dispatcher and succeeds and by
every streaming request whose stream ends (normally, by network error, or
by client disconnect); requests answered from the dedup completed cache
or from an in-flight producer's resolved result write their bytes to the
client but append no log entry. -/
theorem c4_log_completeness (ttlMs : Nat) (st : DedupState)
    (messages : List NeutralMessage) (systemPrompt : Option String) (now : Nat)
    (wait : WaitOutcome) (disp : DispatchOutcome) (clientFormat : ClientFormat)
    (requestId : String) :
    (∀ c st₁, getCompleted ttlMs st (computeKey messages systemPrompt) now = (some c, st₁) →
      (handleNonStreaming ttlMs st messages systemPrompt now wait disp clientFormat
          requestId).wroteBody = some c.body ∧
      (handleNonStreaming ttlMs st messages systemPrompt now wait disp clientFormat
          requestId).logEntries = 0) ∧
    (∀ c st₁, getCompleted ttlMs st (computeKey messages systemPrompt) now =
        (Option.none, st₁) →
      st₁.inflight.contains (computeKey messages systemPrompt) = true →
      wait = WaitOutcome.resolved c →
      (handleNonStreaming ttlMs st messages systemPrompt now wait disp clientFormat
          requestId).wroteBody = some c.body ∧
      (handleNonStreaming ttlMs st messages systemPrompt now wait disp clientFormat
          requestId).logEntries = 0) ∧
    (∀ resp st₁, getCompleted ttlMs st (computeKey messages systemPrompt) now =
        (Option.none, st₁) →
      st₁.inflight.contains (computeKey messages systemPrompt) = false →
      disp = DispatchOutcome.ok resp →
      (handleNonStreaming ttlMs st messages systemPrompt now wait disp clientFormat
          requestId).wroteBody =
        some (formatResponse clientFormat resp requestId) ∧
      (handleNonStreaming ttlMs st messages systemPrompt now wait disp clientFormat
          requestId).logEntries = 1) ∧
    (∀ endKind, handleStreaming true endKind = { wroteBytes := true, logEntries := 1 }) := by
  refine ⟨?_, ?_, ?_, ?_⟩
  · intro c st₁ hhit
    rw [handleNonStreaming, hhit]
    exact ⟨rfl, rfl⟩
  · intro c st₁ hmiss hin hw
    subst hw
    rw [handleNonStreaming, hmiss]
    dsimp only
    rw [markInflight, if_pos hin]
    dsimp only
    rw [if_pos rfl]
    exact ⟨rfl, rfl⟩
  · intro resp st₁ hmiss hnotin hdisp
    subst hdisp
    rw [handleNonStreaming, hmiss]
    dsimp only
    rw [markInflight, hnotin, if_neg (fun h => Bool.noConfusion h)]
    rw [if_neg (fun h => Bool.noConfusion h)]
    simp only [runProducer]
    constructor <;> first | rfl | trivial
  · intro endKind
    cases endKind <;> rfl

/-- A small proxy response used by handler-flow witnesses. -/
def tinyResp : ProxyResponse := { content := "x", inputTokens := 1, outputTokens := 1 }

set_option maxRecDepth 40000 in
/-- Witness for C4 (amended): the four paths at concrete inputs — a cache
hit and an in-flight join reply without logging, a dispatching producer
logs once, and a disconnected stream still logs once. -/
theorem c4_log_completeness_witness :
    ((handleNonStreaming 30000
        { completed := [(computeKey [⟨"user", "hi"⟩] Option.none, cachedOk)], inflight := [] }
        [⟨"user", "hi"⟩] Option.none 110 WaitOutcome.rejected (DispatchOutcome.ok tinyResp)
        ClientFormat.anthropic "r1").wroteBody = some cachedOk.body ∧
      (handleNonStreaming 30000
        { completed := [(computeKey [⟨"user", "hi"⟩] Option.none, cachedOk)], inflight := [] }
        [⟨"user", "hi"⟩] Option.none 110 WaitOutcome.rejected (DispatchOutcome.ok tinyResp)
        ClientFormat.anthropic "r1").logEntries = 0) ∧
    ((handleNonStreaming 30000
        { completed := [], inflight := [computeKey [⟨"user", "hi"⟩] Option.none] }
        [⟨"user", "hi"⟩] Option.none 110 (WaitOutcome.resolved cachedOk)
        (DispatchOutcome.ok tinyResp) ClientFormat.anthropic "r2").wroteBody =
          some cachedOk.body ∧
      (handleNonStreaming 30000
        { completed := [], inflight := [computeKey [⟨"user", "hi"⟩] Option.none] }
        [⟨"user", "hi"⟩] Option.none 110 (WaitOutcome.resolved cachedOk)
        (DispatchOutcome.ok tinyResp) ClientFormat.anthropic "r2").logEntries = 0) ∧
    ((handleNonStreaming 30000 { completed := [], inflight := [] }
        [⟨"user", "hi"⟩] Option.none 110 WaitOutcome.rejected (DispatchOutcome.ok tinyResp)
        ClientFormat.anthropic "r3").wroteBody =
          some (formatResponse ClientFormat.anthropic tinyResp "r3") ∧
      (handleNonStreaming 30000 { completed := [], inflight := [] }
        [⟨"user", "hi"⟩] Option.none 110 WaitOutcome.rejected (DispatchOutcome.ok tinyResp)
        ClientFormat.anthropic "r3").logEntries = 1) ∧
    handleStreaming true StreamEnd.clientDisconnect =
      { wroteBytes := true, logEntries := 1 } := by
  refine ⟨?_, ?_, ?_, ?_⟩
  · exact (c4_log_completeness 30000
      { completed := [(computeKey [⟨"user", "hi"⟩] Option.none, cachedOk)], inflight := [] }
      [⟨"user", "hi"⟩] Option.none 110 WaitOutcome.rejected (DispatchOutcome.ok tinyResp)
      ClientFormat.anthropic "r1").1 cachedOk
      { completed := [(computeKey [⟨"user", "hi"⟩] Option.none, cachedOk)], inflight := [] }
      (by decide)
  · exact (c4_log_completeness 30000
      { completed := [], inflight := [computeKey [⟨"user", "hi"⟩] Option.none] }
      [⟨"user", "hi"⟩] Option.none 110 (WaitOutcome.resolved cachedOk)
      (DispatchOutcome.ok tinyResp) ClientFormat.anthropic "r2").2.1 cachedOk
      { completed := [], inflight := [computeKey [⟨"user", "hi"⟩] Option.none] }
      (by decide) (by decide) rfl
  · exact (c4_log_completeness 30000 { completed := [], inflight := [] }
      [⟨"user", "hi"⟩] Option.none 110 WaitOutcome.rejected (DispatchOutcome.ok tinyResp)
      ClientFormat.anthropic "r3").2.2.1 tinyResp { completed := [], inflight := [] }
      (by decide) (by decide) rfl
  · exact (c4_log_completeness 30000 { completed := [], inflight := [] }
      [⟨"user", "hi"⟩] Option.none 110 WaitOutcome.rejected (DispatchOutcome.ok tinyResp)
      ClientFormat.anthropic "r3").2.2.2 StreamEnd.clientDisconnect

/-- The first (Messages-style) request of the cross-dialect dedup pair:
a fresh cache, a dispatch that succeeds, the body formatted in the
Anthropic dialect. -/
def dupRun1 : NonStreamingRun :=
  handleNonStreaming 30000 { completed := [], inflight := [] } [⟨"user", "dup"⟩]
    Option.none 100 WaitOutcome.rejected (DispatchOutcome.ok tinyResp)
    ClientFormat.anthropic "r1"

set_option maxRecDepth 40000 in
/-- C10: the dedup key ignores the client dialect entirely (it is
computed from the parsed messages and system prompt only), so a
ChatCompletions-style request arriving within the TTL after an identical
Messages-style request hits the completed cache and is answered with the
first request's body byte-for-byte — still encoded in the Anthropic
dialect, which differs from what the OpenAI dialect would have
produced. -/
theorem c10_cross_dialect_dedup_replay :
    (∀ (messages : List NeutralMessage) (systemPrompt : Option String),
      requestDedupKey ClientFormat.anthropic messages systemPrompt =
        requestDedupKey ClientFormat.openai messages systemPrompt) ∧
    (handleNonStreaming 30000 dupRun1.dedup [⟨"user", "dup"⟩] Option.none 5000
        WaitOutcome.rejected (DispatchOutcome.ok tinyResp) ClientFormat.openai
        "r2").wroteBody = dupRun1.wroteBody ∧
    dupRun1.wroteBody = some (formatAnthropicResponse tinyResp "r1") ∧
    formatAnthropicResponse tinyResp "r1" ≠ formatOpenAiResponse tinyResp "r1" := by
  refine ⟨fun _ _ => rfl, by decide, by decide, by decide⟩

set_option maxRecDepth 40000 in
/-- C8: for every message sequence and optional system prompt the dedup
key is the first 16 hex characters of the SHA-256 of the JSON encoding of
`\x7bsystem, messages\x7d` (system defaulting to the empty string), with
one leading `[DAY YYYY-MM-DD HH:MM TZ]` prefix (DAY ∈ MON…SUN,
case-insensitive) stripped from each content; message order and roles are
kept exactly as given — swapping two messages changes the key, so the
source comment's claim of sorting is not what the code does — and only
one leading prefix is stripped. -/
theorem c8_dedup_key_canonicalization (messages : List NeutralMessage)
    (systemPrompt : Option String) :
    computeKey messages systemPrompt =
      String.mk ((sha256Hex (jsonPayload (systemPrompt.getD "")
        (messages.map (fun m =>
          { role := m.role, content := stripTimestampFront m.content : NeutralMessage }))
        )).data.take 16) ∧
    computeKey [⟨"user", "b"⟩, ⟨"user", "a"⟩] Option.none ≠
      computeKey [⟨"user", "a"⟩, ⟨"user", "b"⟩] Option.none ∧
    computeKey [⟨"user", "x"⟩, ⟨"assistant", "y"⟩] Option.none ≠
      computeKey [⟨"assistant", "y"⟩, ⟨"user", "x"⟩] Option.none ∧
    stripTimestampFront "[MON 2026-02-10 14:30 EST] hello world" = "hello world" ∧
    stripTimestampFront "[mon 2026-02-10 14:30 est] hello world" = "hello world" ∧
    stripTimestampFront "hello world" = "hello world" ∧
    stripTimestampFront "[MON 2026-02-10 14:30 EST] [TUE 2026-02-11 09:00 UTC] x" =
      "[TUE 2026-02-11 09:00 UTC] x" :=
  ⟨rfl, by decide, by decide, by decide, by decide, by decide, by decide⟩

set_option maxRecDepth 40000 in
/-- Witness for C8: the key equation at a concrete one-message input. -/
theorem c8_dedup_key_canonicalization_witness :
    computeKey [⟨"user", "w"⟩] Option.none =
      String.mk ((sha256Hex (jsonPayload "" [⟨"user", "w"⟩])).data.take 16) :=
  (c8_dedup_key_canonicalization [⟨"user", "w"⟩] Option.none).1

/-- Witness for C10: dialect-independence of the key at a concrete
input. -/
theorem c10_cross_dialect_dedup_replay_witness :
    requestDedupKey ClientFormat.anthropic [⟨"user", "w"⟩] Option.none =
      requestDedupKey ClientFormat.openai [⟨"user", "w"⟩] Option.none :=
  c10_cross_dialect_dedup_replay.1 [⟨"user", "w"⟩] Option.none

end ClawdThrottle
